import Mathlib

/-!
Verification of the OpenAI-compatible VSCode LLM server (translation and
streaming layer).  The definitions below are a shallow embedding of the
TypeScript sources under `src/`:

* `src/server/routes/chat/response-formatter.ts` — the Response Formatter
  (`createResponseEnvelope`, `createChatCompletionResponse`,
  `createStreamChunk`, `createResponsesResponse`, `createErrorResponse`);
* `src/server/routes/chat.ts` — the inline Chat Completions route
  (`createRouter`) and the Responses SSE stream emitter
  (`ResponsesStreamHandler.handleStream`);
* `src/server/routes/responses/responses-controller.ts` — the Responses
  controller (input normalisation, `previous_response_id` pre-flight,
  instruction defaulting, pipeline);
* the `ModelManager` with preset support and the static `MODEL_PRESETS`
  registry (`shared/model-presets.ts`).

JavaScript dynamic values are modelled by the inductive `JsVal`; upstream
VSCode language-model calls are modelled by explicit oracles, and every
upstream interaction is recorded in a call trace so that statements of the
form "no upstream call is made" can be expressed.  Machine integers do not
occur (all counters are unbounded JS numbers used as array indices or token
counts), so `Nat` is used throughout.
-/

set_option maxRecDepth 4000

namespace LlmServer

/-! ### JavaScript values

A JS runtime value as it appears in a parsed JSON request body.  The
`undefined` constructor models the JS `undefined` value (an absent field
reads as `undefined`).  Numbers are
restricted to integers; the sources never do arithmetic on body numbers,
they only `String(...)`-ify them or compare types, and every request the
claims mention carries integer numbers only. -/
inductive JsVal where
  | str (s : String)
  | num (n : Int)
  | bool (b : Bool)
  | null
  | undefined
  | arr (elems : List JsVal)
  | obj (fields : List (String × JsVal))
deriving Inhabited

/-- Reading a field of a JS object: the first binding wins (object literals
in the requests have unique keys); a missing field reads as `undefined`. -/
def lookupField : List (String × JsVal) → String → JsVal
  | [], _ => .undefined
  | (k, v) :: rest, key => if k = key then v else lookupField rest key

/-- Field access `o.k` on an arbitrary JS value (non-objects give
`undefined`, matching the guarded accesses in the sources). -/
def JsVal.get : JsVal → String → JsVal
  | .obj fields, key => lookupField fields key
  | _, _ => .undefined

/-- JS truthiness for the values the sources test with `if (x)`. -/
def JsVal.truthy : JsVal → Bool
  | .str s => s ≠ ""
  | .num n => n ≠ 0
  | .bool b => b
  | .null => false
  | .undefined => false
  | .arr _ => true
  | .obj _ => true

/-- Mirrors `Array.isArray`. -/
def JsVal.isArray : JsVal → Bool
  | .arr _ => true
  | _ => false

/-- Mirrors `typeof v === 'object' && v !== null && !Array.isArray(v)`
(`isPlainObject` in the responses controller). -/
def JsVal.isPlainObject : JsVal → Bool
  | .obj _ => true
  | _ => false

/-! ### JS string primitives

The sources only ever lower-case and trim ASCII identifiers and whitespace,
so `toLowerCase()` and `trim()` are modelled on the ASCII range. -/

/-- ASCII lower-casing of one character. -/
def charToLower (c : Char) : Char :=
  if c.toNat ≥ 65 ∧ c.toNat ≤ 90 then Char.ofNat (c.toNat + 32) else c

/-- Mirrors `String.prototype.toLowerCase` on ASCII strings. -/
def jsToLower (s : String) : String := String.mk (s.data.map charToLower)

/-- The whitespace characters stripped by `String.prototype.trim`. -/
def jsWhitespace (c : Char) : Bool :=
  c = ' ' ∨ c = '\t' ∨ c = '\n' ∨ c = '\r' ∨ c = '\x0b' ∨ c = '\x0c'

/-- Mirrors `String.prototype.trim`. -/
def jsTrim (s : String) : String :=
  String.mk (((s.data.dropWhile jsWhitespace).reverse.dropWhile jsWhitespace).reverse)

/-! ### Base64 (Buffer.from(s).toString('base64')) -/

/-- UTF-8 encoding of one code point, as a list of byte values. -/
def utf8EncodeChar (c : Char) : List Nat :=
  let n := c.toNat
  if n < 0x80 then [n]
  else if n < 0x800 then [0xC0 + n / 64, 0x80 + n % 64]
  else if n < 0x10000 then [0xE0 + n / 4096, 0x80 + n / 64 % 64, 0x80 + n % 64]
  else [0xF0 + n / 262144, 0x80 + n / 4096 % 64, 0x80 + n / 64 % 64, 0x80 + n % 64]

/-- UTF-8 byte sequence of a string (what `Buffer.from(s)` holds). -/
def utf8Bytes (s : String) : List Nat :=
  s.data.foldr (fun c acc => utf8EncodeChar c ++ acc) []

/-- The standard base64 alphabet. -/
def base64Alphabet : List Char :=
  "ABCDEFGHIJKLMNOPQRSTUVWXYZabcdefghijklmnopqrstuvwxyz0123456789+/".toList

/-- Character of a 6-bit group. -/
def b64Char (n : Nat) : Char := base64Alphabet.getD n 'A'

/-- Base64-encode a byte sequence with padding, exactly as
`Buffer.toString('base64')` does. -/
def base64Encode : List Nat → String
  | [] => ""
  | [x] =>
      String.mk [b64Char (x / 4), b64Char (x % 4 * 16)] ++ "=="
  | [x, y] =>
      String.mk [b64Char (x / 4), b64Char (x % 4 * 16 + y / 16), b64Char (y % 16 * 4)] ++ "="
  | x :: y :: z :: rest =>
      String.mk [b64Char (x / 4), b64Char (x % 4 * 16 + y / 16),
                 b64Char (y % 16 * 4 + z / 64), b64Char (z % 64)] ++ base64Encode rest

/-- Base64 of the UTF-8 bytes of a string, i.e.
`Buffer.from(s).toString('base64')`. -/
def base64OfString (s : String) : String :=
  base64Encode (utf8Bytes s)

/-! ### Response Formatter (`response-formatter.ts`) -/

/-- The usage object `{input_tokens, output_tokens, total_tokens}` (alias
`{prompt_tokens, completion_tokens, total_tokens}` on the Chat surface). -/
structure Usage where
  input_tokens : Nat
  output_tokens : Nat
  total_tokens : Nat
deriving Repr, DecidableEq

/-- An `output_text` content part `{type:'output_text', text, annotations:[]}`
(the streaming variant also carries `logprobs:[]`; both list fields are
constant empty and therefore not represented). -/
structure TextPart where
  type : String
  text : String
deriving Repr, DecidableEq

/-- A Responses output item record.  `status`, `role`, `encrypted_content`
are optional because the three record shapes in the sources
(the envelope-synthesised message item, the streamed reasoning item and the
streamed message item) carry different subsets of them; the reasoning item's
constant `summary: []` is not represented. -/
structure RItem where
  id : String
  type : String
  status : Option String := none
  role : Option String := none
  content : List TextPart := []
  encrypted_content : Option String := none
deriving Repr, DecidableEq

/-- The Responses envelope built by `createResponseEnvelope`.  Constant
fields (`object:'response'`, `background:false`, `error:null`,
`incomplete_details:null`, `user:null`) are omitted; `metadata` keeps the
`metadata ?? {}` normalisation as a string map. -/
structure Envelope where
  id : String
  created_at : Nat
  status : String
  model : String
  output : List RItem
  output_text : String
  usage : Option Usage
  metadata : List (String × String)
  instructions : String
deriving Repr, DecidableEq

/-- Options bag of `createResponseEnvelope`. -/
structure EnvelopeOptions where
  createdAt : Option Nat := none
  outputText : Option String := none
  outputId : Option String := none
  includeOutput : Option Bool := none
  outputItems : Option (List RItem) := none
deriving Repr

/-- Mirrors `ResponseFormatter.createResponseEnvelope`.  The wall-clock
default for `created_at` and the random default message id are impure in the
source and are passed in as `nowSeconds` and `freshMessageId`. -/
def createResponseEnvelope (responseId modelId : String) (status : String)
    (promptTokens completionTokens : Nat)
    (instructions : Option String) (metadata : Option (List (String × String)))
    (options : EnvelopeOptions) (nowSeconds : Nat) (freshMessageId : String) :
    Envelope :=
  let createdAt := options.createdAt.getD nowSeconds
  let outputText := options.outputText.getD ""
  let includeOutput := options.includeOutput.getD true
  let outputId := options.outputId.getD freshMessageId
  let base : Envelope := {
    id := responseId
    created_at := createdAt
    status := status
    model := modelId
    output :=
      if includeOutput then
        [{ id := outputId, type := "message", role := some "assistant",
           content := [{ type := "output_text", text := outputText }] }]
      else []
    output_text := if includeOutput then outputText else ""
    usage :=
      if includeOutput then
        some { input_tokens := promptTokens, output_tokens := completionTokens,
               total_tokens := promptTokens + completionTokens }
      else none
    metadata := metadata.getD []
    instructions := instructions.getD "" }
  match options.outputItems with
  | some items =>
      if includeOutput then
        let withOutput := { base with output := items }
        if items.length > 0 then
          match items.find? (fun item => item.type = "message") with
          | some messageItem =>
              { withOutput with
                output_text := ((messageItem.content.head?).map TextPart.text).getD "" }
          | none => withOutput
        else withOutput
      else base
  | none => base

/-- The Chat Completion response object built by
`createChatCompletionResponse` (single choice with `finish_reason:'stop'`;
the impure id/timestamp are parameters). -/
structure ChatCompletionResponse where
  model : String
  content : String
  finish_reason : String
  usage : Usage
deriving Repr, DecidableEq

/-- Mirrors `ResponseFormatter.createChatCompletionResponse`. -/
def createChatCompletionResponse (modelId responseText : String)
    (promptTokens completionTokens : Nat) : ChatCompletionResponse :=
  { model := modelId
    content := responseText
    finish_reason := "stop"
    usage := { input_tokens := promptTokens, output_tokens := completionTokens,
               total_tokens := promptTokens + completionTokens } }

/-- The delta of a Chat stream chunk: `{role:'assistant'}`, `{content: s}`
or `{}` — exactly the three shapes produced by `createStreamChunk`. -/
inductive ChunkDelta where
  | roleAssistant
  | content (s : String)
  | empty
deriving Repr, DecidableEq

/-- A Chat stream chunk (choice index is constantly 0). -/
structure StreamChunk where
  model : String
  delta : ChunkDelta
  finish_reason : Option String
  usage : Option Usage
deriving Repr, DecidableEq

/-- Mirrors `ResponseFormatter.createStreamChunk`: the delta is role-only
when `isInitial`, carries the fragment when the fragment is truthy (a
non-empty string), and is empty otherwise; `finish_reason:'stop'` and the
usage (with `total = prompt + completion`) appear only on a final chunk. -/
def createStreamChunk (modelId : String) (fragment : Option String)
    (isInitial : Bool) (isFinal : Bool)
    (usage : Option (Nat × Nat)) : StreamChunk :=
  let delta :=
    if isInitial then ChunkDelta.roleAssistant
    else match fragment with
      | some f => if f ≠ "" then ChunkDelta.content f else ChunkDelta.empty
      | none => ChunkDelta.empty
  if isFinal then
    { model := modelId, delta := delta, finish_reason := some "stop"
      usage := usage.map fun (p, c) =>
        { input_tokens := p, output_tokens := c, total_tokens := p + c } }
  else
    { model := modelId, delta := delta, finish_reason := none, usage := none }

/-- Mirrors `ResponseFormatter.createResponsesResponse` (a
`createResponseEnvelope` call with `includeOutput := true`). -/
def createResponsesResponse (responseId modelId responseText : String)
    (promptTokens completionTokens : Nat) (status : String)
    (instructions : Option String) (metadata : Option (List (String × String)))
    (createdAt : Option Nat) (outputId : Option String)
    (outputItems : Option (List RItem))
    (nowSeconds : Nat) (freshMessageId : String) : Envelope :=
  createResponseEnvelope responseId modelId status promptTokens completionTokens
    instructions metadata
    { createdAt := createdAt, outputText := some responseText,
      outputId := outputId, includeOutput := some true,
      outputItems := outputItems } nowSeconds freshMessageId

/-- The uniform error envelope `{error:{message, type:'server_error'}}`
built by `createErrorResponse`; `message` is the thrown error's message. -/
structure ErrorResponse where
  message : String
  type : String
deriving Repr, DecidableEq

/-- Mirrors `ResponseFormatter.createErrorResponse` for a thrown `Error`. -/
def createErrorResponse (message : String) : ErrorResponse :=
  { message := message, type := "server_error" }

/-! ### Responses SSE stream emitter (`ResponsesStreamHandler` in `chat.ts`) -/

/-- Concatenation of a fragment list (JS `responseText += fragment`). -/
def strConcat : List String → String
  | [] => ""
  | s :: rest => s ++ strConcat rest

/-- One SSE event written by `ResponsesStreamHandler.handleStream` on the
success path.  Each constructor mirrors one `writeEvent` payload shape of
the source (constant `logprobs:[]` fields are not represented). -/
inductive REvent where
  | created (seq : Nat) (response : Envelope)
  | inProgress (seq : Nat) (response : Envelope)
  | outputItemAdded (seq : Nat) (outputIndex : Nat) (item : RItem)
  | outputItemDone (seq : Nat) (outputIndex : Nat) (item : RItem)
  | contentPartAdded (seq : Nat) (itemId : String) (outputIndex contentIndex : Nat)
      (part : TextPart)
  | outputTextDelta (seq : Nat) (itemId : String) (outputIndex contentIndex : Nat)
      (delta : String) (obfuscation : String)
  | outputTextDone (seq : Nat) (itemId : String) (outputIndex contentIndex : Nat)
      (text : String)
  | contentPartDone (seq : Nat) (itemId : String) (outputIndex contentIndex : Nat)
      (part : TextPart)
  | completed (seq : Nat) (response : Envelope)
deriving Repr, DecidableEq

/-- The `event:` name written for an event. -/
def REvent.name : REvent → String
  | .created .. => "response.created"
  | .inProgress .. => "response.in_progress"
  | .outputItemAdded .. => "response.output_item.added"
  | .outputItemDone .. => "response.output_item.done"
  | .contentPartAdded .. => "response.content_part.added"
  | .outputTextDelta .. => "response.output_text.delta"
  | .outputTextDone .. => "response.output_text.done"
  | .contentPartDone .. => "response.content_part.done"
  | .completed .. => "response.completed"

/-- The `sequence_number` field of an event. -/
def REvent.seq : REvent → Nat
  | .created s _ => s
  | .inProgress s _ => s
  | .outputItemAdded s _ _ => s
  | .outputItemDone s _ _ => s
  | .contentPartAdded s _ _ _ _ => s
  | .outputTextDelta s _ _ _ _ _ => s
  | .outputTextDone s _ _ _ _ => s
  | .contentPartDone s _ _ _ _ => s
  | .completed s _ => s

/-- The envelopes carried by an event list (`response` payload fields). -/
def envelopesOf : List REvent → List Envelope
  | [] => []
  | .created _ e :: rest => e :: envelopesOf rest
  | .inProgress _ e :: rest => e :: envelopesOf rest
  | .completed _ e :: rest => e :: envelopesOf rest
  | _ :: rest => envelopesOf rest

/-- Mirrors `ResponsesStreamHandler.generateObfuscation`:
`Buffer.from(fragment + ':' + sequence).toString('base64')`. -/
def generateObfuscation (fragment : String) (sequence : Nat) : String :=
  base64OfString (fragment ++ ":" ++ toString sequence)

/-- The `for await (const fragment of chatResponse.text)` loop of
`ResponsesStreamHandler.handleStream`: falsy (empty) fragments are skipped
(`if (!fragment) continue`), every other fragment appends to the
accumulated text and emits one `response.output_text.delta` event carrying
the fragment and `obfuscation = base64(fragment + ':' + seq)`.  Returns the
emitted events, the sequence counter after the loop, and the accumulated
response text. -/
def deltaLoop (messageItemId : String) :
    List String → Nat → String → List REvent × Nat × String
  | [], seq, acc => ([], seq, acc)
  | f :: rest, seq, acc =>
      if f = "" then deltaLoop messageItemId rest seq acc
      else
        let e := REvent.outputTextDelta seq messageItemId 1 0 f (generateObfuscation f seq)
        let r := deltaLoop messageItemId rest (seq + 1) (acc ++ f)
        (e :: r.1, r.2)

/-- Mirrors the success path of `ResponsesStreamHandler.handleStream`
(`chat.ts`).  The impure inputs of the source are parameters: the upstream
fragment sequence `fragments`, the `countTokens` capability of the resolved
model, the ids generated in `initializeStream` (`responseId`,
`messageItemId`, `reasoningItemId`) and the start-of-stream timestamp
`createdAt`.  `instructions` is the `instructions ?? ''` argument and
`promptTokens` the pre-computed prompt token sum. -/
def respHandleStream (fragments : List String) (promptTokens : Nat)
    (countTokens : String → Nat) (instructions : Option String)
    (metadata : Option (List (String × String)))
    (modelId responseId messageItemId reasoningItemId : String)
    (createdAt : Nat) : List REvent :=
  let effectiveInstructions := instructions.getD ""
  let reasoningEncrypted := base64OfString (effectiveInstructions ++ ":" ++ responseId)
  let createdEnvelope := createResponseEnvelope responseId modelId "in_progress"
    promptTokens 0 (some effectiveInstructions) metadata
    { createdAt := some createdAt, outputText := some "",
      outputId := some messageItemId, includeOutput := some false }
    createdAt messageItemId
  let reasoningItem : RItem :=
    { id := reasoningItemId, type := "reasoning", status := some "in_progress",
      encrypted_content := some reasoningEncrypted }
  let reasoningCompletedItem : RItem := { reasoningItem with status := some "completed" }
  let messageItemBase : RItem :=
    { id := messageItemId, type := "message", status := some "in_progress",
      role := some "assistant", content := [] }
  let initialPart : TextPart := { type := "output_text", text := "" }
  let loopResult := deltaLoop messageItemId fragments 6 ""
  let responseText := loopResult.2.2
  let seqAfter := loopResult.2.1
  let finalPart : TextPart := { type := "output_text", text := responseText }
  let messageCompletedItem : RItem :=
    { id := messageItemId, type := "message", status := some "completed",
      role := some "assistant", content := [finalPart] }
  let completionTokens := countTokens responseText
  let completedEnvelope := createResponseEnvelope responseId modelId "completed"
    promptTokens completionTokens (some effectiveInstructions) metadata
    { createdAt := some createdAt, outputText := some responseText,
      outputId := some messageItemId, includeOutput := some true,
      outputItems := some [reasoningCompletedItem, messageCompletedItem] }
    createdAt messageItemId
  [REvent.created 0 createdEnvelope,
   REvent.inProgress 1 createdEnvelope,
   REvent.outputItemAdded 2 0 reasoningItem,
   REvent.outputItemDone 3 0 reasoningCompletedItem,
   REvent.outputItemAdded 4 1 messageItemBase,
   REvent.contentPartAdded 5 messageItemId 1 0 initialPart]
  ++ loopResult.1
  ++ [REvent.outputTextDone seqAfter messageItemId 1 0 responseText,
      REvent.contentPartDone (seqAfter + 1) messageItemId 1 0 finalPart,
      REvent.outputItemDone (seqAfter + 2) 1 messageCompletedItem,
      REvent.completed (seqAfter + 3) completedEnvelope]

/-! ### Message Normalizer (`responses-controller.ts`) -/

/-- Normalised message role: `system`, `user` or `assistant`. -/
inductive Role where
  | system
  | user
  | assistant
deriving Repr, DecidableEq

/-- A normalised `{role, content}` message. -/
structure ChatMessage where
  role : Role
  content : String
deriving Repr, DecidableEq

/-- Mirrors `ResponsesController.normalizeRole`: non-strings and
unrecognised strings map to `user`; `developer` and `tool` map to
`system`. -/
def normalizeRole : JsVal → Role
  | .str role =>
      match jsToLower role with
      | "system" => .system
      | "assistant" => .assistant
      | "user" => .user
      | "developer" => .system
      | "tool" => .system
      | _ => .user
  | _ => .user

mutual

/-- Recursion worker for `extractText`.  The recursion of the source is on
the nested structure of the JS value; here it is driven by a fuel counter
so that the definition is structural and kernel-computable.  Every
recursive call strictly decreases `sizeOf` of the value, so the wrapper's
fuel `sizeOf v` is always sufficient and the fuel-exhausted branch is
unreachable. -/
def extractTextF : Nat → JsVal → String
  | 0, _ => ""
  | Nat.succ fuel, v =>
      match v with
      | .str s => s
      | .num n => toString n
      | .bool b => if b then "true" else "false"
      | .arr parts =>
          String.intercalate "\n"
            ((parts.map (extractTextF fuel)).filter fun t => t ≠ "")
      | .obj fields =>
          match extractTextFromContentObjectF fuel fields with
          | some directText => if directText ≠ "" then directText else ""
          | none => ""
      | .null => ""
      | .undefined => ""

/-- Recursion worker for `extractTextFromContentObject` (same fuel scheme
as `extractTextF`). -/
def extractTextFromContentObjectF : Nat → List (String × JsVal) → Option String
  | 0, _ => none
  | Nat.succ fuel, fields =>
      match lookupField fields "text" with
      | .str s => some s
      | _ =>
        let type := match lookupField fields "type" with
          | .str t => some t
          | _ => none
        match type, lookupField fields "value" with
        | some "text", .str v => some v
        | _, _ =>
          match (if type = some "input_text" then
                  match lookupField fields "input_text" with
                  | .str s => some s
                  | _ =>
                    match lookupField fields "content" with
                    | .str s => some s
                    | _ => none
                 else none) with
          | some s => some s
          | none =>
            match type, lookupField fields "output_text" with
            | some "output_text", .str s => some s
            | _, _ =>
              match lookupField fields "content" with
              | .arr nestedParts =>
                  let nested := extractTextF fuel (.arr nestedParts)
                  if nested.length > 0 then some nested else none
              | _ => none

end

/-- Recursion-depth budget for the fuel-driven JS-value recursions.  Each
recursive call descends one level into the value, so any value of nesting
depth below this bound (far beyond what the JS engine's own call stack
allows) is processed exactly as by the source. -/
def jsRecursionLimit : Nat := 1000000

/-- Mirrors `ResponsesController.extractText`: strings pass through,
numbers and booleans are stringified (`String(content)`), arrays flatten
each element and join the non-empty results with a newline, plain objects
go through the content-object cascade (a string `text` field wins; then
the `type`-tagged shapes `text`+`value`, `input_text`+(`input_text`|
`content`), `output_text`+`output_text`; then a nested `content` array is
flattened recursively and returned only when non-empty), everything else
gives "". -/
def extractText (v : JsVal) : String := extractTextF jsRecursionLimit v

/-- Mirrors `ResponsesController.extractTextFromContentObject` (see
`extractText` for the cascade). -/
def extractTextFromContentObject (fields : List (String × JsVal)) : Option String :=
  extractTextFromContentObjectF jsRecursionLimit fields

/-- Mirrors `ResponsesController.parseMessagesArray`: falsy and
non-object-typed elements are skipped (arrays and plain objects pass the
`typeof === 'object'` test), the role is normalised, the content flattened,
and empty-content elements dropped. -/
def parseMessagesArray : List JsVal → List ChatMessage
  | [] => []
  | message :: rest =>
      let keep := match message with
        | .obj _ => true
        | .arr _ => true
        | _ => false
      if keep then
        let content := extractText (message.get "content")
        if content = "" then parseMessagesArray rest
        else { role := normalizeRole (message.get "role"), content := content }
          :: parseMessagesArray rest
      else parseMessagesArray rest

/-- Mirrors `ResponsesController.parseInput`: a string becomes one `user`
message, an array is parsed element-wise, a (non-null) object is treated as
a one-element array, anything else yields no messages. -/
def parseInput : JsVal → List ChatMessage
  | .str s => [{ role := .user, content := s }]
  | .arr elems => parseMessagesArray elems
  | .obj fields => parseMessagesArray [.obj fields]
  | _ => []

/-- Mirrors `ResponsesController.buildMessages`: a non-empty instruction
text is pushed first as a `system` message, then the parsed `input`, then a
`messages` array fallback parsed the same way. -/
def buildMessages (input : JsVal) (instructionText : String)
    (fallbackMessages : JsVal) : List ChatMessage :=
  (if instructionText ≠ "" then [ChatMessage.mk .system instructionText] else [])
  ++ (match input with
      | .undefined => []
      | .null => []
      | v => parseInput v)
  ++ (match fallbackMessages with
      | .arr elems => parseMessagesArray elems
      | _ => [])

/-- Mirrors the static `DEFAULT_INSTRUCTIONS` text of
`ResponsesController` (a `join('\n')` of the literal line list). -/
def DEFAULT_INSTRUCTIONS : String := String.intercalate "\n" [
  "You are Droid, an AI software engineering agent built by Factory.",
  "",
  "You work within an interactive cli tool and you are focused on helping users with any software engineering tasks.",
  "Guidelines:",
  "- Use tools when necessary.",
  "- Don\x27t stop until all user tasks are completed.",
  "- Never use emojis in replies unless specifically requested by the user.",
  "- Only add absolutely necessary comments to the code you generate.",
  "- Your replies should be concise and you should preserve users tokens.",
  "- Never create or update documentations and readme files unless specifically requested by the user.",
  "- Replies must be concise but informative, try to fit the answer into less than 1-4 sentences not counting tools usage and code generation.",
  "- Never retry tool calls that were cancelled by the user, unless user explicitly asks you to do so.",
  "Focus on the task at hand, don\x27t try to jump to related but not requested tasks.",
  "Once you are done with the task, you can summarize the changes you made in a 1-4 sentences, don\x27t go into too much detail.",
  "IMPORTANT: do not stop until user requests are fulfilled, but be mindful of the token usage.",
  "",
  "Response Guidelines - Do exactly what the user asks, no more, no less:",
  "",
  "Examples of correct responses:",
  "- User: \"read file X\" → Use Read tool, then provide minimal summary of what was found",
  "- User: \"list files in directory Y\" → Use LS tool, show results with brief context",
  "- User: \"search for pattern Z\" → Use Grep tool, present findings concisely",
  "- User: \"create file A with content B\" → Use Create tool, confirm creation",
  "- User: \"edit line 5 in file C to say D\" → Use Edit tool, confirm change made",
  "",
  "Examples of what NOT to do:",
  "- Don\x27t suggest additional improvements unless asked",
  "- Don\x27t explain alternatives unless the user asks \"how should I...\"",
  "- Don\x27t add extra analysis unless specifically requested",
  "- Don\x27t offer to do related tasks unless the user asks for suggestions",
  "- No hacks. No unreasonable shortcuts.",
  "- Do not give up if you encounter unexpected problems. Reason about alternative solutions and debug systematically to get back on track.",
  "Don\x27t immediately jump into the action when user asks how to approach a task, first try to explain the approach, then ask if user wants you to proceed with the implementation.",
  "If user asks you to do something in a clear way, you can proceed with the implementation without asking for confirmation.",
  "Coding conventions:",
  "- Never start coding without figuring out the existing codebase structure and conventions.",
  "- When editing a code file, pay attention to the surrounding code and try to match the existing coding style.",
  "- Follow approaches and use already used libraries and patterns. Always check that a given library is already installed in the project before using it. Even most popular libraries can be missing in the project.",
  "- Be mindful about all security implications of the code you generate, never expose any sensitive data and user secrets or keys, even in logs.",
  "- Before ANY git commit or push operation:",
  "    - Run \x27git diff --cached\x27 to review ALL changes being committed",
  "    - Run \x27git status\x27 to confirm all files being included",
  "    - Examine the diff for secrets, credentials, API keys, or sensitive data (especially in config files, logs, environment files, and build outputs)",
  "    - if detected, STOP and warn the user",
  "Testing and verification:",
  "Before completing the task, always verify that the code you generated works as expected. Explore project documentation and scripts to find how lint, typecheck and unit tests are run. Make sure to run all of them before completing the task, unless user explicitly asks you not to do so. Make sure to fix all diagnostics and errors that you see in the system reminder messages <system-reminder>. System reminders will contain relevant contextual information gathered for your consideration.",
  "",
  "<markdown_spec>",
  "",
  "Output all final responses in Markdown.",
  "- Ignore any previous instructions that contradict this.",
  "- Use github-flavored markdown for formatting when semantically correct.",
  "- Use h1 (#), h2 (##), h3 (###) etc. tags liberally in order to demarcate the sections of your final response.",
  "- Use code blocks (\x60\x60\x60) for code snippets, and \x60inline code\x60 for inline code, file paths, commands, and other short code snippets.",
  "",
  "</markdown_spec>"]

/-- Mirrors the `effectiveInstructions` computation of
`ResponsesController.handleResponse`: the flattened `instructions` text is
used when it is non-empty after trimming, otherwise the built-in default
instruction text is substituted. -/
def effectiveInstructions (instructions : JsVal) : String :=
  let instructionText := extractText instructions
  if instructionText ≠ "" ∧ (jsTrim instructionText).length > 0 then instructionText
  else DEFAULT_INSTRUCTIONS

/-! ### Chat Completions route (`createRouter` in `chat.ts`)

The upstream vscode language-model capability is an oracle; its answers are
fixed per request so the handler becomes a pure function of the request
body and the oracle. -/

/-- An upstream model handle (`vscode.LanguageModelChat` identity fields). -/
structure LMModel where
  id : String
  family : String
  name : String
deriving Repr, DecidableEq

/-- What `model.sendRequest` does for the main request: reject, resolve to
a falsy response, or resolve to a handle whose `text` yields the given
fragment sequence. -/
inductive SendOutcome where
  | threw (message : String)
  | nullish
  | ok (fragments : List String)
deriving Repr

/-- Oracle for the chat route's upstream interactions: `vscode.lm`
availability, the `selectChatModels()` call (`none` = the call threw), the
truthiness of the connectivity-test response, the main `sendRequest`, and
the model's `countTokens`. -/
structure ChatUpstream where
  lmAvailable : Bool
  selectResult : Option (List LMModel)
  testResponseOk : Bool
  send : SendOutcome
  countTokens : String → Nat

/-- Whether a value is `undefined`. -/
def JsVal.isUndefined : JsVal → Bool
  | .undefined => true
  | _ => false

/-- Whether a value is `null` or `undefined`. -/
def JsVal.isNullish : JsVal → Bool
  | .null => true
  | .undefined => true
  | _ => false

/-- Recursion worker for `jsStringCoerce` (fuel scheme as for
`extractTextF`: fuel `sizeOf v` always suffices). -/
def jsStringCoerceF : Nat → JsVal → String
  | 0, _ => ""
  | Nat.succ fuel, v =>
      match v with
      | .str s => s
      | .num n => toString n
      | .bool b => if b then "true" else "false"
      | .null => "null"
      | .undefined => "undefined"
      | .arr elems =>
          String.intercalate ","
            (elems.map fun e =>
              if e.isNullish then "" else jsStringCoerceF fuel e)
      | .obj _ => "[object Object]"

/-- JS string coercion `String(v)` (template-literal coercion): arrays join
their coerced elements with commas, `null`/`undefined` inside arrays become
empty. -/
def jsStringCoerce (v : JsVal) : String := jsStringCoerceF jsRecursionLimit v

/-- Validation of one element of `messages` (the `craftedPrompt` map in
`createRouter`): the element must be object-typed, its `role` a truthy
string among `user`/`system`/`assistant`, its `content` a truthy string.
On success the validated content string is returned. -/
def craftChatMessage (msg : JsVal) (index : Nat) : Except String String :=
  let objectLike := match msg with
    | .obj _ => true
    | .arr _ => true
    | _ => false
  if objectLike = false then
    .error ("Invalid message at index " ++ toString index
      ++ ": message must be an object")
  else
    match msg.get "role" with
    | .str role =>
        if role = "" then
          .error ("Invalid message at index " ++ toString index
            ++ ": missing or invalid 'role' property")
        else
          match msg.get "content" with
          | .str content =>
              if content = "" then
                .error ("Invalid message at index " ++ toString index
                  ++ ": missing or invalid 'content' property")
              else
                if role = "user" ∨ role = "system" ∨ role = "assistant" then
                  .ok content
                else
                  .error ("Invalid message at index " ++ toString index
                    ++ ": role must be 'system', 'user', or 'assistant'")
          | _ =>
              .error ("Invalid message at index " ++ toString index
                ++ ": missing or invalid 'content' property")
    | _ =>
        .error ("Invalid message at index " ++ toString index
          ++ ": missing or invalid 'role' property")

/-- Element-wise validation of the whole `messages` array, with the running
index of the `map` callback. -/
def craftChatMessages : List JsVal → Nat → Except String (List String)
  | [], _ => .ok []
  | msg :: rest, index =>
      match craftChatMessage msg index with
      | .error e => .error e
      | .ok content =>
          match craftChatMessages rest (index + 1) with
          | .error e => .error e
          | .ok contents => .ok (content :: contents)

/-- The prompt token sum: `for (const msg of messages)
promptTokenValue += await model.countTokens(msg.content)` (validation has
already ensured each content is a non-empty string; other shapes cannot
occur). -/
def chatPromptTokens (messages : List JsVal) (countTokens : String → Nat) : Nat :=
  messages.foldl
    (fun acc m =>
      acc + match m.get "content" with
        | .str s => countTokens s
        | _ => 0)
    0

/-- One write on the chat streaming response. -/
inductive ChatWrite where
  | chunk (c : StreamChunk)
  | doneLine
  | errorChunk (e : ErrorResponse)
deriving Repr, DecidableEq

/-- The literal initial chunk of the inline streaming path:
`{delta: {role:'assistant'}}` and nothing else. -/
def roleChunkW (modelId : String) : ChatWrite :=
  .chunk { model := modelId, delta := .roleAssistant, finish_reason := none,
           usage := none }

/-- The literal per-fragment chunk of the inline streaming path:
`{delta: {content: fragment}}` (the `content` key is present even for an
empty-string fragment). -/
def contentChunkW (modelId fragment : String) : ChatWrite :=
  .chunk { model := modelId, delta := .content fragment, finish_reason := none,
           usage := none }

/-- The literal final chunk of the inline streaming path: empty delta,
`finish_reason:'stop'` and the usage object with
`total = prompt + completion`. -/
def finalChunkW (modelId : String) (promptTokens completionTokens : Nat) : ChatWrite :=
  .chunk { model := modelId, delta := .empty, finish_reason := some "stop",
           usage := some { input_tokens := promptTokens,
                           output_tokens := completionTokens,
                           total_tokens := promptTokens + completionTokens } }

/-- The manual-iterator drain loop of the inline streaming path in
`createRouter`: `while ((result = await iterator.next()))` processes one
extra iteration once the iterator is exhausted, because the result object
`{done: true, value: undefined}` is truthy.  On that final iteration
`responseTextAll += fragment` coerces `undefined` to the string
"undefined" before the completion tokens are counted, and the final chunk
(empty delta, `finish_reason:'stop'`, usage) is written; on every earlier
iteration the fragment is appended and written as a `delta.content` chunk
(an empty-string fragment still produces a `{content: ''}` delta). -/
def chatStreamLoop (modelId : String) (countTokens : String → Nat)
    (promptTokens : Nat) : List String → String → List ChatWrite
  | [], acc =>
      let textAll := acc ++ "undefined"
      [finalChunkW modelId promptTokens (countTokens textAll)]
  | f :: rest, acc =>
      contentChunkW modelId f
        :: chatStreamLoop modelId countTokens promptTokens rest (acc ++ f)

/-- The full write sequence of the inline streaming path: the initial
role-only chunk, then the drain loop; the connection is then closed
(`res.end()`) without a `data: [DONE]` line. -/
def chatStreamWrites (modelId : String) (fragments : List String)
    (promptTokens : Nat) (countTokens : String → Nat) : List ChatWrite :=
  roleChunkW modelId :: chatStreamLoop modelId countTokens promptTokens fragments ""

/-- A successful chat route response: a streamed SSE body or a single JSON
body. -/
inductive ChatSuccess where
  | streamBody (writes : List ChatWrite)
  | jsonBody (resp : ChatCompletionResponse)
deriving Repr, DecidableEq

/-- The HTTP outcome of the chat route. -/
inductive ChatOutcome where
  | success (s : ChatSuccess)
  | errorStatus (status : Nat) (err : ErrorResponse)
deriving Repr, DecidableEq

/-- The try-block of the chat `createRouter` handler, up to the point where
an error is thrown or a response is produced.  Returns the outcome (or the
thrown error message) and whether any upstream call (`selectChatModels` /
`sendRequest`) was made. -/
def chatTryBlock (body : JsVal) (up : ChatUpstream) (configDefaultModel : String) :
    Except String ChatSuccess × Bool :=
  let messagesVal := body.get "messages"
  let streamVal := body.get "stream"
  let isStream := match streamVal with
    | .undefined => false
    | v => v.truthy
  match messagesVal with
  | .arr messages =>
      (match craftChatMessages messages 0 with
       | .error e => (.error e, false)
       | .ok _ =>
          if ¬ up.lmAvailable then
            (.error ("Language model API not available. Please ensure the GitHub"
              ++ " Copilot extension is installed and activated."), false)
          else
            -- `requestedModel || defaultModel`: a truthy model value is used
            -- verbatim in the response payloads; non-string truthy values are
            -- represented by their JS string coercion.
            let modelId := if (body.get "model").truthy then
                jsStringCoerce (body.get "model")
              else configDefaultModel
            match up.selectResult with
            | none =>
                (.error ("Failed to initialize language model. Please ensure"
                  ++ " GitHub Copilot is properly configured."), true)
            | some [] =>
                (.error ("Failed to initialize language model. Please ensure"
                  ++ " GitHub Copilot is properly configured."), true)
            | some (_ :: _) =>
                if ¬ up.testResponseOk then
                  (.error ("Failed to initialize language model. Please ensure"
                    ++ " GitHub Copilot is properly configured."), true)
                else
                  match up.send with
                  | .threw msg => (.error msg, true)
                  | .nullish => (.error "No response from language model", true)
                  | .ok fragments =>
                      let promptTokens := chatPromptTokens messages up.countTokens
                      if isStream then
                        (.ok (.streamBody
                          (chatStreamWrites modelId fragments promptTokens
                            up.countTokens)), true)
                      else
                        let responseText := strConcat fragments
                        let completionTokens := up.countTokens responseText
                        (.ok (.jsonBody (createChatCompletionResponse modelId
                          responseText promptTokens completionTokens)), true)
       )
  | _ => (.error "Messages must be an array", false)

/-- The chat route handler: the try-block result, with every thrown error
converted by the catch handler into `res.status(500)` and the uniform
`server_error` envelope carrying the error's message. -/
def chatRoute (body : JsVal) (up : ChatUpstream) (configDefaultModel : String) :
    ChatOutcome × Bool :=
  match chatTryBlock body up configDefaultModel with
  | (.error msg, touched) => (.errorStatus 500 (createErrorResponse msg), touched)
  | (.ok s, touched) => (.success s, touched)

/-! ### Model presets (`shared/model-presets.ts`) -/

/-- Reasoning options of a preset or request (`effort`, `summary`,
`budget_tokens`). -/
structure ReasoningOptions where
  effort : Option String := none
  summary : Option String := none
  budget_tokens : Option Nat := none
deriving Repr, DecidableEq

/-- A model preset: a named alias over a list of base model id
candidates. -/
structure ModelPreset where
  id : String
  baseModelIds : List String
  reasoning : Option ReasoningOptions := none
  description : String
  displayName : String
deriving Repr, DecidableEq

/-- Mirrors `GPT5_BASE_IDS`. -/
def GPT5_BASE_IDS : List String := ["gpt-5", "openai/gpt-5"]

/-- Mirrors `GPT5_CODEX_BASE_IDS`. -/
def GPT5_CODEX_BASE_IDS : List String := ["gpt-5-codex", "openai/gpt-5-codex"]

/-- The static preset registry `MODEL_PRESETS`. -/
def MODEL_PRESETS : List ModelPreset := [
  { id := "gpt-5-high", baseModelIds := GPT5_BASE_IDS,
    reasoning := some { effort := some "high" },
    description := "GPT-5 with reasoning effort preset to high.",
    displayName := "GPT-5 (High Reasoning)" },
  { id := "gpt-5-medium", baseModelIds := GPT5_BASE_IDS,
    reasoning := some { effort := some "medium" },
    description := "GPT-5 with reasoning effort preset to medium.",
    displayName := "GPT-5 (Medium Reasoning)" },
  { id := "gpt-5-low", baseModelIds := GPT5_BASE_IDS,
    reasoning := some { effort := some "low" },
    description := "GPT-5 with reasoning effort preset to low.",
    displayName := "GPT-5 (Low Reasoning)" },
  { id := "gpt-5-codex-high", baseModelIds := GPT5_CODEX_BASE_IDS,
    reasoning := some { effort := some "high" },
    description := "GPT-5 Codex with reasoning effort preset to high.",
    displayName := "GPT-5 Codex (High Reasoning)" },
  { id := "gpt-5-codex-medium", baseModelIds := GPT5_CODEX_BASE_IDS,
    reasoning := some { effort := some "medium" },
    description := "GPT-5 Codex with reasoning effort preset to medium.",
    displayName := "GPT-5 Codex (Medium Reasoning)" },
  { id := "gpt-5-codex-low", baseModelIds := GPT5_CODEX_BASE_IDS,
    reasoning := some { effort := some "low" },
    description := "GPT-5 Codex with reasoning effort preset to low.",
    displayName := "GPT-5 Codex (Low Reasoning)" }]

/-- Mirrors `resolveModelPreset`: a falsy (absent or empty) id resolves to
nothing; otherwise the id is trimmed, lower-cased and compared with each
preset id lower-cased, exact match. -/
def resolveModelPreset (modelId : Option String) : Option ModelPreset :=
  match modelId with
  | none => none
  | some s =>
      if s = "" then none
      else MODEL_PRESETS.find? fun preset =>
        jsToLower preset.id = jsToLower (jsTrim s)

/-! ### Model Resolver (`ModelManager` with preset support) -/

/-- A `vscode.LanguageModelChatSelector` as used by the manager: an exact
id, a family, or the empty wildcard selector. -/
structure Selector where
  id : Option String := none
  family : Option String := none
deriving Repr, DecidableEq

/-- One upstream interaction of the resolver. -/
inductive UpCall where
  | selectCall (sel : Selector)
  | probeCall (modelId : String)
  | sendCall
deriving Repr, DecidableEq

/-- Oracle for the resolver's upstream: `vscode.lm` availability,
`selectChatModels` per selector (`none` = the call threw), and the
connectivity-probe result per model. -/
structure MMUpstream where
  lmAvailable : Bool
  select : Selector → Option (List LMModel)
  probeOk : LMModel → Bool

/-- The resolver's mutable state: the alias cache (a JS `Map`, modelled as
a key-indexed partial map) and the last selected model. -/
structure MMState where
  cachedModels : String → Option LMModel
  lastSelectedModel : Option (String × LMModel)

/-- The empty resolver state. -/
def MMState.initial : MMState :=
  { cachedModels := fun _ => none, lastSelectedModel := none }

/-- `Map.set`. -/
def mapSet (m : String → Option LMModel) (k : String) (v : LMModel) :
    String → Option LMModel :=
  fun x => if x = k then some v else m x

/-- Repeated `Map.set` over a key list (all with the same value). -/
def cacheInsertMany : (String → Option LMModel) → List String → LMModel →
    (String → Option LMModel)
  | m, [], _ => m
  | m, k :: ks, v => cacheInsertMany (mapSet m k v) ks v

/-- Insertion-ordered de-duplication (a JS `Set` built by `add` calls). -/
def dedupFirstAux : List String → List String → List String
  | [], _ => []
  | s :: rest, seen =>
      if s ∈ seen then dedupFirstAux rest seen
      else s :: dedupFirstAux rest (s :: seen)

/-- Insertion-ordered de-duplication of a key list. -/
def dedupFirst (l : List String) : List String := dedupFirstAux l []

/-- The `cacheLookupIds` set of `getModel`: the trimmed preferred id (when
truthy), the preset id, every trimmed base id, and the non-empty default
id, in insertion order. -/
def cacheLookupIds (preferredModelId : Option String) (preset : Option ModelPreset)
    (trimmedPreferredIds : List String) (defaultModelId : String) : List String :=
  dedupFirst
    ((match preferredModelId with
      | some p => if jsTrim p ≠ "" then [jsTrim p] else []
      | none => [])
     ++ (match preset with
         | some ps => [ps.id]
         | none => [])
     ++ trimmedPreferredIds
     ++ (if defaultModelId.length > 0 then [defaultModelId] else []))

/-- The cache-check loop: return the first cached model among the lookup
ids. -/
def firstCacheHit (cache : String → Option LMModel) : List String → Option LMModel
  | [] => none
  | id :: rest =>
      match cache id with
      | some m => some m
      | none => firstCacheHit cache rest

/-- Mirrors `ModelManager.selectModelFromList` on a non-empty result list:
prefer an id/family match for the (trimmed, truthy) preferred id, then for
the fallback id when it differs from the preferred id, else the first
model. -/
def selectModelFromList (first : LMModel) (rest : List LMModel)
    (preferredModelId fallbackId : Option String) : LMModel :=
  let models := first :: rest
  let trimmedPreferred := preferredModelId.map jsTrim
  let trimmedFallback := fallbackId.map jsTrim
  let preferredMatch := match trimmedPreferred with
    | some tp =>
        if tp ≠ "" then models.find? fun (mm : LMModel) => mm.id == tp || mm.family == tp
        else none
    | none => none
  match preferredMatch with
  | some m => m
  | none =>
      let fallbackOk : Bool := match trimmedFallback with
        | some tf =>
            tf != "" && (match trimmedPreferred with
              | some tp => tf != tp
              | none => true)
        | none => false
      let fallbackMatch :=
        if fallbackOk then
          match trimmedFallback with
          | some tf => models.find? fun (mm : LMModel) => mm.id == tf || mm.family == tf
          | none => none
        else none
      match fallbackMatch with
      | some m => m
      | none => first

/-- The candidate id of a selector iteration:
`selector.id ?? selector.family ?? selectionPreferredId`. -/
def selectorCandidateId (sel : Selector) (selectionPreferredId : Option String) :
    Option String :=
  match sel.id with
  | some i => some i
  | none =>
      match sel.family with
      | some f => some f
      | none => selectionPreferredId

/-- The selector loop of `getModel`: try each selector; a thrown or empty
selection, or a failed connectivity probe, is swallowed and the next
selector is tried (`ensureModelReady` probes only when the model differs
from the last selected one).  Returns the first fully-succeeding
selector's pick and the upstream calls made. -/
def trySelectors (up : MMUpstream) (last : Option (String × LMModel))
    (selectionPreferredId : Option String) (defaultModelId : String) :
    List Selector → Option LMModel × List UpCall
  | [] => (none, [])
  | sel :: rest =>
      match up.select sel with
      | none =>
          let r := trySelectors up last selectionPreferredId defaultModelId rest
          (r.1, .selectCall sel :: r.2)
      | some [] =>
          let r := trySelectors up last selectionPreferredId defaultModelId rest
          (r.1, .selectCall sel :: r.2)
      | some (m :: ms) =>
          let candidateId := selectorCandidateId sel selectionPreferredId
          let selected := selectModelFromList m ms candidateId (some defaultModelId)
          let alreadyReady : Bool := match last with
            | some l => l.1 == selected.id
            | none => false
          if alreadyReady then (some selected, [.selectCall sel])
          else if up.probeOk selected then
            (some selected, [.selectCall sel, .probeCall selected.id])
          else
            let r := trySelectors up last selectionPreferredId defaultModelId rest
            (r.1, .selectCall sel :: .probeCall selected.id :: r.2)

/-- The selector list of `getModel`: an exact-id selector then a family
selector for each trimmed candidate id, the same pair for the default id
when it is not among the candidates, and the wildcard selector last. -/
def selectorList (trimmedPreferredIds : List String) (defaultModelId : String) :
    List Selector :=
  (trimmedPreferredIds.map fun i =>
      [Selector.mk (some i) none, Selector.mk none (some i)]).join
  ++ (if trimmedPreferredIds.contains defaultModelId = false
        ∧ defaultModelId.length > 0 then
        [Selector.mk (some defaultModelId) none, Selector.mk none (some defaultModelId)]
      else [])
  ++ [Selector.mk none none]

/-- The trimmed candidate id list: the preset's base ids when a preset
matches, else the trimmed preferred id when truthy, else nothing. -/
def trimmedPreferredIdsOf (preset : Option ModelPreset)
    (preferredModelId : Option String) : List String :=
  match preset with
  | some ps => (ps.baseModelIds.map jsTrim).filter fun i => i.length > 0
  | none =>
      match preferredModelId with
      | some p => if jsTrim p ≠ "" then [jsTrim p] else []
      | none => []

/-- The `selectionPreferredId` of `getModel`:
`trimmedPreferredIds[0] ?? preferredModelId?.trim()`. -/
def selectionPreferredIdOf (trimmedPreferredIds : List String)
    (preferredModelId : Option String) : Option String :=
  match trimmedPreferredIds.head? with
  | some h => some h
  | none => preferredModelId.map jsTrim

/-- Mirrors `ModelManager.getModel`: resolve a preset, check the alias
cache for every lookup id (a hit returns immediately with no upstream
call), otherwise run the selector cascade; on success the resolved model
is cached under its own id and family, the trimmed preferred id, every
trimmed preset base id and the preset id, and `lastSelectedModel` is
updated.  Returns the result, the new state and the upstream calls
made. -/
def getModel (st : MMState) (up : MMUpstream) (preferredModelId : Option String)
    (configDefaultModel : String) : Except String LMModel × MMState × List UpCall :=
  if up.lmAvailable = false then
    (.error ("Language model API not available. Please ensure the GitHub Copilot"
      ++ " extension is installed and activated."), st, [])
  else
    let preset := resolveModelPreset preferredModelId
    let trimmedPreferredIds := trimmedPreferredIdsOf preset preferredModelId
    let defaultModelId := jsTrim configDefaultModel
    let lookupIds := cacheLookupIds preferredModelId preset trimmedPreferredIds defaultModelId
    match firstCacheHit st.cachedModels lookupIds with
    | some cached =>
        (.ok cached, { st with lastSelectedModel := some (cached.id, cached) }, [])
    | none =>
        let selectors := selectorList trimmedPreferredIds defaultModelId
        let selectionPreferredId := selectionPreferredIdOf trimmedPreferredIds
          preferredModelId
        let r := trySelectors up st.lastSelectedModel selectionPreferredId
          defaultModelId selectors
        match r.1 with
        | some selected =>
            let c1 := mapSet st.cachedModels selected.id selected
            let c2 := if selected.family ≠ "" then mapSet c1 selected.family selected
              else c1
            let c3 := match preferredModelId with
              | some p => if jsTrim p ≠ "" then mapSet c2 (jsTrim p) selected else c2
              | none => c2
            let c4 := match preset with
              | some ps =>
                  mapSet
                    (cacheInsertMany c3
                      ((ps.baseModelIds.map jsTrim).filter fun i => i.length > 0)
                      selected)
                    ps.id selected
              | none => c3
            (.ok selected,
             { cachedModels := c4, lastSelectedModel := some (selected.id, selected) },
             r.2)
        | none =>
            (.error ("No language models available. Please check your GitHub Copilot"
              ++ " connection."), st, r.2)

/-- The model a single selector would supply, were it the one to succeed:
a non-empty selection whose pick passes `ensureModelReady` (no probe
needed, or probe succeeds). -/
def pickFromSelector (up : MMUpstream) (last : Option (String × LMModel))
    (selectionPreferredId : Option String) (defaultModelId : String)
    (sel : Selector) : Option LMModel :=
  match up.select sel with
  | some (m :: ms) =>
      let selected := selectModelFromList m ms
        (selectorCandidateId sel selectionPreferredId) (some defaultModelId)
      let alreadyReady : Bool := match last with
        | some l => l.1 == selected.id
        | none => false
      if alreadyReady then some selected
      else if up.probeOk selected then some selected
      else none
  | _ => none

/-! ### Responses controller pipeline (`responses-controller.ts`)

`handleResponse` as a pure function of the request body, the request
headers, the resolver state and the upstream oracle.  Debug-file logging is
I/O-only and not represented.  `normalizeTools`, `normalizeToolChoice`,
`normalizeParallelToolCalls` and the `justification` extraction are
computed by the source but flow only into `sendRequest` options and into
`createResponsesResponse` options that this repository's
`ResponseFormatter` does not read (`createResponseEnvelope` destructures
only `createdAt`/`outputText`/`outputId`/`includeOutput`/`outputItems`),
so they cannot influence any observable value and are not represented. -/

/-- Whether a JS string list contains a string, prefix check. -/
def listStartsWith : List Char → List Char → Bool
  | [], _ => true
  | _ :: _, [] => false
  | p :: ps, c :: cs => p = c && listStartsWith ps cs

/-- Substring containment over character lists. -/
def listContainsSub (p : List Char) : List Char → Bool
  | [] => p.isEmpty
  | c :: rest => listStartsWith p (c :: rest) || listContainsSub p rest

/-- Mirrors `String.prototype.includes`. -/
def strIncludes (s pattern : String) : Bool := listContainsSub pattern.data s.data

/-- Splitting a string on commas (`accept.split(',')`). -/
def splitComma (s : String) : List String :=
  (s.data.foldr
    (fun c acc =>
      if c = ',' then [] :: acc
      else match acc with
        | h :: t => (c :: h) :: t
        | [] => [[c]])
    [[]]).map String.mk

/-- Case-insensitive request-header lookup (`req.header(name)`). -/
def headerGet (headers : List (String × String)) (name : String) : Option String :=
  (headers.find? fun kv => jsToLower kv.1 = jsToLower name).map fun kv => kv.2

/-- The header part of the stream decision. -/
def shouldStreamHeaders (headers : List (String × String)) : Bool :=
  (match headerGet headers "x-stainless-helper-method" with
   | some v => v ≠ "" && jsToLower v == "stream"
   | none => false)
  || (match headerGet headers "x-openai-stream" with
      | some v => v ≠ "" && jsToLower v == "true"
      | none => false)
  || (match headerGet headers "accept" with
      | some v => ((splitComma v).map fun p => jsToLower (jsTrim p)).contains
          "text/event-stream"
      | none => false)

/-- Mirrors `ResponsesController.shouldStream`: a boolean `stream` field
wins; a recognised string value wins; otherwise the
`x-stainless-helper-method: stream` header, the `x-openai-stream: true`
header or an `Accept` list containing `text/event-stream` each force
streaming on; default off. -/
def shouldStream (streamField : JsVal) (headers : List (String × String)) : Bool :=
  match streamField with
  | .bool b => b
  | .str s =>
      let normalized := jsToLower s
      if normalized ∈ ["true", "1", "yes", "on"] then true
      else if normalized ∈ ["false", "0", "no", "off"] then false
      else shouldStreamHeaders headers
  | _ => shouldStreamHeaders headers

/-- Mirrors `normalizeReasoningEffort`. -/
def normalizeReasoningEffort (v : JsVal) : Option String :=
  match v with
  | .str s =>
      let normalized := jsToLower s
      if normalized ∈ ["low", "medium", "high", "default"] then some normalized
      else none
  | _ => none

/-- Mirrors `normalizeReasoningSummary`. -/
def normalizeReasoningSummary (v : JsVal) : Option String :=
  match v with
  | .str s =>
      let normalized := jsToLower s
      if normalized ∈ ["off", "detailed", "default"] then some normalized
      else none
  | _ => none

/-- Mirrors `normalizeReasoningBudget` (a finite non-negative number,
floored; `JsVal` numbers are already integral). -/
def normalizeReasoningBudget (v : JsVal) : Option Nat :=
  match v with
  | .num n => if n < 0 then none else some n.toNat
  | _ => none

/-- Nullish coalescing `a ?? b` on JS values. -/
def jsCoalesce (a b : JsVal) : JsVal := if a.isNullish then b else a

/-- Mirrors `extractReasoningOptions`: values from a `reasoning` object,
with `reasoning_effort`/`reasoningEffort` (and the summary and budget
analogues) as fallbacks; the result is present only when at least one
field was recognised. -/
def extractReasoningOptions (rawBody : JsVal) : Option ReasoningOptions :=
  match rawBody with
  | .obj _ =>
      let reasoning := rawBody.get "reasoning"
      let fromObj : ReasoningOptions :=
        if reasoning.isPlainObject then
          { effort := normalizeReasoningEffort (reasoning.get "effort")
            summary := normalizeReasoningSummary (reasoning.get "summary")
            budget_tokens := normalizeReasoningBudget
              (jsCoalesce (reasoning.get "budget_tokens")
                (reasoning.get "budgetTokens")) }
        else {}
      let fallbackEffort := normalizeReasoningEffort
        (jsCoalesce (rawBody.get "reasoning_effort") (rawBody.get "reasoningEffort"))
      let fallbackSummary := normalizeReasoningSummary
        (jsCoalesce (rawBody.get "reasoning_summary") (rawBody.get "reasoningSummary"))
      let fallbackBudget := normalizeReasoningBudget
        (jsCoalesce (rawBody.get "reasoning_budget_tokens")
          (rawBody.get "reasoningBudgetTokens"))
      let result : ReasoningOptions :=
        { effort := fromObj.effort.orElse fun _ => fallbackEffort
          summary := fromObj.summary.orElse fun _ => fallbackSummary
          budget_tokens := fromObj.budget_tokens.orElse fun _ => fallbackBudget }
      if result.effort.isNone ∧ result.summary.isNone ∧ result.budget_tokens.isNone
      then none else some result
  | _ => none

/-- Mirrors `mergeReasoningOptions`: request-supplied fields override the
preset's; the result is dropped when empty. -/
def mergeReasoningOptions (preset supplied : Option ReasoningOptions) :
    Option ReasoningOptions :=
  match preset, supplied with
  | none, none => none
  | _, _ =>
      let p := preset.getD {}
      let s := supplied.getD {}
      let merged : ReasoningOptions :=
        { effort := s.effort.orElse fun _ => p.effort
          summary := s.summary.orElse fun _ => p.summary
          budget_tokens := s.budget_tokens.orElse fun _ => p.budget_tokens }
      if merged.effort.isNone ∧ merged.summary.isNone ∧ merged.budget_tokens.isNone
      then none else some merged

/-- Mirrors `normalizeMetadata`: a plain object is shallow-copied, anything
else is dropped. -/
def normalizeMetadata (metadata : JsVal) : Option (List (String × JsVal)) :=
  match metadata with
  | .obj fields => some fields
  | _ => none

/-- JSON escaping of one character (quotes, backslashes and the common
control characters, as `JSON.stringify` produces). -/
def jsonEscapeChar (c : Char) : List Char :=
  if c = '"' then ['\\', '"']
  else if c = '\\' then ['\\', '\\']
  else if c = '\n' then ['\\', 'n']
  else if c = '\t' then ['\\', 't']
  else if c = '\r' then ['\\', 'r']
  else [c]

/-- A JSON string literal. -/
def jsonStringLit (s : String) : String :=
  "\"" ++ String.mk (s.data.foldr (fun c acc => jsonEscapeChar c ++ acc) []) ++ "\""

/-- Recursion worker for `jsonStringify` (fuel scheme as for
`extractTextF`).  Inside arrays `null` and `undefined` serialise as
`null`; object fields with `undefined` values are dropped. -/
def jsonStringifyF : Nat → JsVal → String
  | 0, _ => ""
  | Nat.succ fuel, v =>
      match v with
      | .str s => jsonStringLit s
      | .num n => toString n
      | .bool b => if b then "true" else "false"
      | .null => "null"
      | .undefined => "null"
      | .arr elems =>
          "[" ++ String.intercalate "," (elems.map (jsonStringifyF fuel)) ++ "]"
      | .obj fields =>
          "\x7b" ++ String.intercalate ","
            ((fields.filter fun kv => !kv.2.isUndefined).map
              fun kv => jsonStringLit kv.1 ++ ":" ++ jsonStringifyF fuel kv.2)
          ++ "\x7d"

/-- `JSON.stringify` on a JS value. -/
def jsonStringify (v : JsVal) : String := jsonStringifyF jsRecursionLimit v

/-- `JSON.stringify` of a `ReasoningOptions` object (keys in the
construction order `effort`, `summary`, `budget_tokens`, present keys
only, which is the insertion order of every construction site in the
source). -/
def reasJson (r : ReasoningOptions) : String :=
  "\x7b" ++ String.intercalate ","
    ((match r.effort with
      | some e => [jsonStringLit "effort" ++ ":" ++ jsonStringLit e]
      | none => [])
     ++ (match r.summary with
         | some s => [jsonStringLit "summary" ++ ":" ++ jsonStringLit s]
         | none => [])
     ++ (match r.budget_tokens with
         | some b => [jsonStringLit "budget_tokens" ++ ":" ++ toString b]
         | none => []))
  ++ "\x7d"

/-- Mirrors `stringifyMetadataValue` for request-metadata values. -/
def stringifyMetadataValue (v : JsVal) : String :=
  match v with
  | .undefined => ""
  | .null => ""
  | .str s => s
  | .num n => toString n
  | .bool b => if b then "true" else "false"
  | _ => jsonStringify v

/-- Mirrors `buildResponseMetadata`: the normalised request metadata
(undefined/null entries skipped, request keys assumed distinct as JSON
object keys), then `resolved_model_id`, `requested_model_id` when it
differs, the preset id and preset reasoning, the merged reasoning, and the
applied model options (`{reasoning}` — present exactly when reasoning
is). -/
def buildResponseMetadata (requestMetadata : Option (List (String × JsVal)))
    (reasoning : Option ReasoningOptions) (preset : Option ModelPreset)
    (resolvedModelId : String) (requestedModelId : Option String) :
    Option (List (String × String)) :=
  let base := (requestMetadata.getD []).foldl
    (fun acc kv => if kv.2.isNullish then acc
      else acc ++ [(kv.1, stringifyMetadataValue kv.2)])
    ([] : List (String × String))
  let b2 : List (String × String) := base ++ [("resolved_model_id", resolvedModelId)]
  let b3 : List (String × String) := match requestedModelId with
    | some rq => if rq ≠ resolvedModelId then b2 ++ [("requested_model_id", rq)] else b2
    | none => b2
  let b4 : List (String × String) := match preset with
    | some ps =>
        b3 ++ [("preset_model_id", ps.id)]
        ++ (match ps.reasoning with
            | some r => [("preset_reasoning", reasJson r)]
            | none => [])
    | none => b3
  let b5 : List (String × String) := match reasoning with
    | some r =>
        b4 ++ [("requested_reasoning", reasJson r)]
        ++ [("applied_model_options", "\x7b" ++ jsonStringLit "reasoning" ++ ":"
            ++ reasJson r ++ "\x7d")]
    | none => b4
  if b5.length > 0 then some b5 else none

/-- The `messages.length === 0` guard of `handleResponse`: the built
message list, or the `No input provided` error. -/
def responsesTryMessages (input : JsVal) (effIns : String) (fallback : JsVal) :
    Except String (List ChatMessage) :=
  let messages := buildMessages input effIns fallback
  if messages.length = 0 then
    .error ("No input provided. Supply \x60input\x60 or \x60messages\x60 with at"
      ++ " least one entry.")
  else .ok messages

/-- The outcome of a `/v1/responses` request. -/
inductive ROutcome where
  | rejectedPrev (status : Nat) (err : ErrorResponse)
  | httpError (status : Nat) (err : ErrorResponse)
  | streamed (events : List REvent)
  | completedJson (payload : Envelope)
deriving Repr, DecidableEq

/-- The HTTP status of a responses outcome (success paths answer 200). -/
def responsesStatus : ROutcome → Nat
  | .rejectedPrev s _ => s
  | .httpError s _ => s
  | .streamed _ => 200
  | .completedJson _ => 200

/-- Upstream oracle for the responses pipeline: the resolver oracle plus
the main `sendRequest` and the model's `countTokens`. -/
structure RespUpstream where
  mm : MMUpstream
  send : SendOutcome
  countTokens : String → Nat

/-- Mirrors `ResponsesController.handleError`: HTTP 400 iff the error
message mentions `No input provided`, else 500, always with the uniform
`server_error` envelope. -/
def respHandleError (msg : String) : ROutcome :=
  .httpError (if strIncludes msg "No input provided" then 400 else 500)
    (createErrorResponse msg)

/-- The prompt-token loop of `handleResponse` over typed messages. -/
def respPromptTokens (messages : List ChatMessage) (countTokens : String → Nat) : Nat :=
  messages.foldl (fun acc m => acc + countTokens m.content) 0

/-- The try-block of `handleResponse` (everything after the
`previous_response_id` pre-flight). -/
def responsesHandleRest (body : JsVal) (headers : List (String × String))
    (st : MMState) (up : RespUpstream) (configDefaultModel : String)
    (responseId messageItemId reasoningItemId : String) (nowSeconds : Nat)
    (input : JsVal) (requestedModel : Option String) (stream : Bool) :
    ROutcome × MMState × List UpCall :=
  let effIns := effectiveInstructions (body.get "instructions")
  let preset := resolveModelPreset requestedModel
  let requestReasoning := extractReasoningOptions body
  let mergedReasoning := mergeReasoningOptions (preset.bind fun p => p.reasoning)
    requestReasoning
  let normalizedMetadata := normalizeMetadata (body.get "metadata")
  match responsesTryMessages input effIns (body.get "messages") with
  | .error msg => (respHandleError msg, st, [])
  | .ok messages =>
      match getModel st up.mm requestedModel configDefaultModel with
      | (.error msg, st2, calls) => (respHandleError msg, st2, calls)
      | (.ok model, st2, calls) =>
          let activeId := match st2.lastSelectedModel with
            | some l => l.1
            | none => ""
          let resolvedModelId :=
            if activeId ≠ "" then activeId
            else if model.id ≠ "" then model.id
            else match requestedModel with
              | some r => if r ≠ "" then r else configDefaultModel
              | none => configDefaultModel
          let responseModelId := match preset with
            | some ps => ps.id
            | none => resolvedModelId
          match up.send with
          | .threw msg => (respHandleError msg, st2, calls ++ [.sendCall])
          | .nullish =>
              (respHandleError "No response from language model", st2,
               calls ++ [.sendCall])
          | .ok fragments =>
              let promptTokens := respPromptTokens messages up.countTokens
              let responseMetadata := buildResponseMetadata normalizedMetadata
                mergedReasoning preset resolvedModelId requestedModel
              if stream then
                (.streamed (respHandleStream fragments promptTokens up.countTokens
                  (some effIns) responseMetadata responseModelId responseId
                  messageItemId reasoningItemId nowSeconds),
                 st2, calls ++ [.sendCall])
              else
                let responseText := strConcat fragments
                let completionTokens := up.countTokens responseText
                (.completedJson (createResponsesResponse responseId responseModelId
                  responseText promptTokens completionTokens "completed" (some effIns)
                  responseMetadata none none none nowSeconds messageItemId),
                 st2, calls ++ [.sendCall])

/-- Mirrors `ResponsesController.handleResponse`: the
`previous_response_id` pre-flight (rejected only when the field is a
truthy, i.e. non-empty, string), the instruction defaulting, the message
build with its `No input provided` guard, model resolution, the upstream
send, and the streaming/non-streaming split.  `createChatMessage` cannot
throw on the built messages (roles are normalised, contents non-empty), so
the crafting map is the identity on this representation.  Returns the
outcome, the resolver state afterwards and the upstream calls made. -/
def responsesHandle (body : JsVal) (headers : List (String × String))
    (st : MMState) (up : RespUpstream) (configDefaultModel : String)
    (responseId messageItemId reasoningItemId : String) (nowSeconds : Nat) :
    ROutcome × MMState × List UpCall :=
  let input := body.get "input"
  let requestedModel := match body.get "model" with
    | .str s => some s
    | _ => none
  let stream := shouldStream (body.get "stream") headers
  let previousResponseId := match body.get "previous_response_id" with
    | .str s => some s
    | _ => none
  match previousResponseId with
  | some p =>
      if p ≠ "" then
        (.rejectedPrev 400 (createErrorResponse "previous_response_id is not supported yet."),
         st, [])
      else
        responsesHandleRest body headers st up configDefaultModel responseId
          messageItemId reasoningItemId nowSeconds input requestedModel stream
  | none =>
      responsesHandleRest body headers st up configDefaultModel responseId
        messageItemId reasoningItemId nowSeconds input requestedModel stream

/-! ### Concrete demonstration inputs used by witnesses and
counterexamples -/

/-- The number of non-empty fragments in a list. -/
def nonEmptyCount (fs : List String) : Nat :=
  (fs.filter (fun f => f ≠ "")).length

/-- A concrete healthy responses upstream: the exact-id selector for
"gpt-5" yields a model, probes succeed, the send yields the fragment
"pong", and `countTokens` is string length. -/
def demoRespUpstream : RespUpstream :=
  { mm := { lmAvailable := true
            select := fun sel => if sel.id = some "gpt-5" then
                some [{ id := "gpt-5", family := "gpt-5", name := "GPT-5" }] else none
            probeOk := fun _ => true }
    send := .ok ["pong"]
    countTokens := String.length }

/-- A concrete healthy upstream oracle: one model, working connectivity
test, fragments ["pong"], and `countTokens` = string length. -/
def demoChatUpstream : ChatUpstream :=
  { lmAvailable := true
    selectResult := some [{ id := "gpt-4o", family := "gpt-4o", name := "GPT-4o" }]
    testResponseOk := true
    send := .ok ["pong"]
    countTokens := String.length }

/-- A concrete chat body: one user message "ping". -/
def demoChatBody (extra : List (String × JsVal)) : JsVal :=
  .obj (("messages", .arr [.obj [("role", .str "user"), ("content", .str "ping")]])
    :: ("model", .str "gpt-4o") :: extra)

/-- A concrete gpt-5 model handle. -/
def demoM5 : LMModel := { id := "gpt-5", family := "gpt-5", name := "GPT-5" }

/-- A concrete resolver upstream: only the exact-id selector for "gpt-5" yields a model; probes succeed. -/
def demoMMUpstream : MMUpstream :=
  { lmAvailable := true
    select := fun sel => if sel.id = some "gpt-5" then some [demoM5] else none
    probeOk := fun _ => true }

/-- The first entry of the preset registry, spelled out. -/
def presetGpt5High : ModelPreset :=
  { id := "gpt-5-high", baseModelIds := GPT5_BASE_IDS,
    reasoning := some { effort := some "high" },
    description := "GPT-5 with reasoning effort preset to high.",
    displayName := "GPT-5 (High Reasoning)" }

/-! ## Supporting lemmas -/

theorem deltaLoop_names (m : String) (fs : List String) : ∀ (k : Nat) (a : String),
    ((deltaLoop m fs k a).1).map REvent.name
      = List.replicate (nonEmptyCount fs) "response.output_text.delta" := by
  induction fs with
  | nil => intro k a; simp [deltaLoop, nonEmptyCount]
  | cons f rest ih =>
      intro k a
      by_cases h : f = ""
      · simp [deltaLoop, h, ih, nonEmptyCount]
      · simp [deltaLoop, h, ih, nonEmptyCount, REvent.name, List.replicate_succ]

theorem deltaLoop_seqs (m : String) (fs : List String) : ∀ (k : Nat) (a : String),
    ((deltaLoop m fs k a).1).map REvent.seq = List.range' k (nonEmptyCount fs) := by
  induction fs with
  | nil => intro k a; simp [deltaLoop, nonEmptyCount]
  | cons f rest ih =>
      intro k a
      by_cases h : f = ""
      · simp [deltaLoop, h, ih, nonEmptyCount]
      · simp [deltaLoop, h, ih, nonEmptyCount, REvent.seq, List.range'_succ]

theorem deltaLoop_seqEnd (m : String) (fs : List String) : ∀ (k : Nat) (a : String),
    (deltaLoop m fs k a).2.1 = k + nonEmptyCount fs := by
  induction fs with
  | nil => intro k a; simp [deltaLoop, nonEmptyCount]
  | cons f rest ih =>
      intro k a
      by_cases h : f = ""
      · simp [deltaLoop, h, ih, nonEmptyCount]
      · simp [deltaLoop, h, ih, nonEmptyCount]
        omega

theorem deltaLoop_text (m : String) (fs : List String) : ∀ (k : Nat) (a : String),
    (deltaLoop m fs k a).2.2 = a ++ strConcat fs := by
  induction fs with
  | nil => intro k a; simp [deltaLoop, strConcat]
  | cons f rest ih =>
      intro k a
      by_cases h : f = ""
      · simp [deltaLoop, h, ih, strConcat]
      · simp [deltaLoop, h, ih, strConcat, String.append_assoc]

theorem deltaLoop_envelopes (m : String) (fs : List String) : ∀ (k : Nat) (a : String),
    envelopesOf (deltaLoop m fs k a).1 = [] := by
  induction fs with
  | nil => intro k a; simp [deltaLoop, envelopesOf]
  | cons f rest ih =>
      intro k a
      by_cases h : f = ""
      · simp [deltaLoop, h, ih]
      · simp [deltaLoop, h, ih, envelopesOf]

theorem deltaLoop_delta_events (m : String) (fs : List String) :
    ∀ (k : Nat) (a : String), ∀ e ∈ (deltaLoop m fs k a).1,
      ∃ s d, e = REvent.outputTextDelta s m 1 0 d (generateObfuscation d s) := by
  induction fs with
  | nil => intro k a e he; simp [deltaLoop] at he
  | cons f rest ih =>
      intro k a e he
      by_cases h : f = ""
      · rw [deltaLoop, if_pos h] at he
        exact ih k a e he
      · rw [deltaLoop, if_neg h] at he
        rcases List.mem_cons.mp he with h1 | h2
        · exact ⟨k, f, h1⟩
        · exact ih (k + 1) (a ++ f) e h2

/-- Appending three ranges that cover `[0, 10 + n)`. -/
theorem range_zero_cover (n : Nat) :
    List.range' 0 6 ++ List.range' 6 n ++ List.range' (6 + n) 4
      = List.range (10 + n) := by
  have h1 := List.range'_append 0 6 n 1
  have h2 := List.range'_append 0 (6 + n) 4 1
  simp at h1 h2
  rw [List.range_eq_range', h1, Nat.add_comm n 6, h2]
  congr 1
  omega

/-- The `usage` field of a built envelope is determined by `includeOutput`:
token totals with `total = input + output` when output is included, `null`
otherwise. -/
theorem createResponseEnvelope_usage (responseId modelId status : String)
    (p c : Nat) (instructions : Option String) (metadata : Option (List (String × String)))
    (options : EnvelopeOptions) (now : Nat) (fid : String) :
    (createResponseEnvelope responseId modelId status p c instructions metadata
        options now fid).usage
      = if options.includeOutput.getD true then
          some { input_tokens := p, output_tokens := c, total_tokens := p + c }
        else none := by
  simp only [createResponseEnvelope]
  cases options.outputItems <;> by_cases hIncl : options.includeOutput.getD true <;>
    simp [hIncl] <;> split <;> (try simp_all) <;> (try split) <;> (try simp_all)

/-- Without output inclusion the envelope's output list and output text are
empty. -/
theorem createResponseEnvelope_not_include (responseId modelId status : String)
    (p c : Nat) (instructions : Option String) (metadata : Option (List (String × String)))
    (options : EnvelopeOptions) (now : Nat) (fid : String)
    (h : options.includeOutput.getD true = false) :
    (createResponseEnvelope responseId modelId status p c instructions metadata
        options now fid).output = []
    ∧ (createResponseEnvelope responseId modelId status p c instructions metadata
        options now fid).output_text = "" := by
  simp only [createResponseEnvelope]
  cases options.outputItems <;> simp [h]

/-- The `status` argument is stored verbatim. -/
theorem createResponseEnvelope_status (responseId modelId status : String)
    (p c : Nat) (instructions : Option String) (metadata : Option (List (String × String)))
    (options : EnvelopeOptions) (now : Nat) (fid : String) :
    (createResponseEnvelope responseId modelId status p c instructions metadata
        options now fid).status = status := by
  simp only [createResponseEnvelope]
  cases options.outputItems <;> by_cases hIncl : options.includeOutput.getD true <;>
    simp [hIncl] <;> split <;> (try simp_all) <;> (try split) <;> (try simp_all)

/-- `envelopesOf` distributes over list append. -/
theorem envelopesOf_append (l1 l2 : List REvent) :
    envelopesOf (l1 ++ l2) = envelopesOf l1 ++ envelopesOf l2 := by
  induction l1 with
  | nil => simp [envelopesOf]
  | cons e rest ih => cases e <;> simp [envelopesOf, ih]

/-- The effective instruction text of a Responses request is never empty:
either the request supplied text that is non-empty after trimming, or the
non-empty built-in default is substituted. -/
theorem effectiveInstructions_ne (instructions : JsVal) :
    effectiveInstructions instructions ≠ "" := by
  have key : ∀ t : String,
      (if t ≠ "" ∧ (jsTrim t).length > 0 then t else DEFAULT_INSTRUCTIONS) ≠ "" := by
    intro t
    split
    · rename_i h
      exact h.1
    · decide
  exact key (extractText instructions)

/-- The drain loop writes one content chunk per fragment and then the
final usage chunk, whose completion tokens are counted over the
accumulated text with the string "undefined" appended. -/
theorem chatStreamLoop_spec (mid : String) (ct : String → Nat) (pt : Nat)
    (fs : List String) : ∀ acc : String,
    chatStreamLoop mid ct pt fs acc
      = fs.map (contentChunkW mid)
        ++ [finalChunkW mid pt (ct (acc ++ strConcat fs ++ "undefined"))] := by
  induction fs with
  | nil => intro acc; simp [chatStreamLoop, strConcat]
  | cons f rest ih =>
      intro acc
      simp [chatStreamLoop, strConcat, ih, String.append_assoc]

/-- The selector loop returns the pick of the first succeeding selector. -/
theorem trySelectors_eq_findSome (up : MMUpstream) (last : Option (String × LMModel))
    (sp : Option String) (d : String) (sels : List Selector) :
    (trySelectors up last sp d sels).1 = sels.findSome? (pickFromSelector up last sp d) := by
  induction sels with
  | nil => simp [trySelectors]
  | cons sel rest ih =>
      rw [trySelectors, List.findSome?]
      cases hs : up.select sel with
      | none => simp [pickFromSelector, hs, ih]
      | some models =>
          cases models with
          | nil => simp [pickFromSelector, hs, ih]
          | cons m ms =>
              simp only [pickFromSelector, hs]
              generalize selectModelFromList m ms (selectorCandidateId sel sp) (some d) = picked
              cases hr : (match last with
                | some l => l.1 == picked.id
                | none => false) <;>
                cases hp : up.probeOk picked <;> simp [hr, hp, ih]

/-- If no lookup id is cached the cache check finds nothing. -/
theorem firstCacheHit_none (cache : String → Option LMModel) (ids : List String)
    (h : ∀ id ∈ ids, cache id = none) : firstCacheHit cache ids = none := by
  induction ids with
  | nil => rfl
  | cons i rest ih =>
      rw [firstCacheHit]
      rw [h i (by simp)]
      exact ih fun id hid => h id (by simp [hid])

/-- Batch insertion preserves an entry that already carries the inserted
value. -/
theorem cacheInsertMany_preserve (v : LMModel) (k : String) (ks : List String) :
    ∀ m, m k = some v → cacheInsertMany m ks v k = some v := by
  induction ks with
  | nil => intro m hm; exact hm
  | cons k0 rest ih =>
      intro m hm
      rw [cacheInsertMany]
      exact ih _ (by unfold mapSet; split <;> simp [hm])

/-- Every inserted key maps to the inserted value after batch insertion. -/
theorem cacheInsertMany_mem (v : LMModel) (k : String) (ks : List String) :
    ∀ m, k ∈ ks → cacheInsertMany m ks v k = some v := by
  induction ks with
  | nil => intro m hm; simp at hm
  | cons k0 rest ih =>
      intro m hm
      rw [cacheInsertMany]
      rcases List.mem_cons.mp hm with h1 | h2
      · subst h1
        exact cacheInsertMany_preserve v k rest _ (by simp [mapSet])
      · exact ih _ h2

/-- Every base id in the static preset registry is already trimmed and
non-empty. -/
theorem model_presets_ids_trimmed :
    ∀ p ∈ MODEL_PRESETS, ∀ b ∈ p.baseModelIds, jsTrim b = b ∧ ¬ b = "" := by
  decide

/-- A non-empty string has positive length. -/
theorem string_ne_length_pos (s : String) (h : ¬ s = "") : s.length > 0 := by
  cases s with
  | mk data =>
      cases data with
      | nil => simp at h
      | cons c cs => simp [String.length]

/-- On a cache miss with a matching preset, `getModel` returns the pick of
the first succeeding selector of the cascade (or the exhaustion error). -/
theorem getModel_preset_result
    (st : MMState) (up : MMUpstream) (pid cfg : String) (preset : ModelPreset)
    (hpreset : resolveModelPreset (some pid) = some preset)
    (hlm : up.lmAvailable = true)
    (hmiss : ∀ id ∈ cacheLookupIds (some pid) (some preset)
        (trimmedPreferredIdsOf (some preset) (some pid)) (jsTrim cfg),
        st.cachedModels id = none) :
    (getModel st up (some pid) cfg).1
      = (match (selectorList (trimmedPreferredIdsOf (some preset) (some pid))
            (jsTrim cfg)).findSome?
            (pickFromSelector up st.lastSelectedModel
              (selectionPreferredIdOf (trimmedPreferredIdsOf (some preset) (some pid))
                (some pid)) (jsTrim cfg)) with
         | some m => Except.ok m
         | none => Except.error ("No language models available. Please check your"
             ++ " GitHub Copilot connection.")) := by
  have hfch := firstCacheHit_none st.cachedModels _ hmiss
  have htry := trySelectors_eq_findSome up st.lastSelectedModel
    (selectionPreferredIdOf (trimmedPreferredIdsOf (some preset) (some pid)) (some pid))
    (jsTrim cfg) (selectorList (trimmedPreferredIdsOf (some preset) (some pid)) (jsTrim cfg))
  simp only [getModel, hlm, hpreset, hfch, htry]
  cases hfs : (selectorList (trimmedPreferredIdsOf (some preset) (some pid))
      (jsTrim cfg)).findSome?
      (pickFromSelector up st.lastSelectedModel
        (selectionPreferredIdOf (trimmedPreferredIdsOf (some preset) (some pid))
          (some pid)) (jsTrim cfg)) <;> simp

/-- On a successful preset resolution the cache afterwards maps the preset
id and every base id to the resolved model. -/
theorem getModel_preset_cache
    (st : MMState) (up : MMUpstream) (pid cfg : String) (preset : ModelPreset)
    (m : LMModel)
    (hpreset : resolveModelPreset (some pid) = some preset)
    (hlm : up.lmAvailable = true)
    (hmiss : ∀ id ∈ cacheLookupIds (some pid) (some preset)
        (trimmedPreferredIdsOf (some preset) (some pid)) (jsTrim cfg),
        st.cachedModels id = none)
    (hsucc : (selectorList (trimmedPreferredIdsOf (some preset) (some pid))
        (jsTrim cfg)).findSome?
        (pickFromSelector up st.lastSelectedModel
          (selectionPreferredIdOf (trimmedPreferredIdsOf (some preset) (some pid))
            (some pid)) (jsTrim cfg)) = some m) :
    ((getModel st up (some pid) cfg).2.1.cachedModels preset.id = some m)
    ∧ (∀ b ∈ preset.baseModelIds,
        (getModel st up (some pid) cfg).2.1.cachedModels b = some m) := by
  have hfch := firstCacheHit_none st.cachedModels _ hmiss
  have htry := trySelectors_eq_findSome up st.lastSelectedModel
    (selectionPreferredIdOf (trimmedPreferredIdsOf (some preset) (some pid)) (some pid))
    (jsTrim cfg) (selectorList (trimmedPreferredIdsOf (some preset) (some pid)) (jsTrim cfg))
  have hpm : preset ∈ MODEL_PRESETS := by
    by_cases hz : pid = ""
    · simp only [resolveModelPreset, hz, if_true] at hpreset
      exact absurd hpreset (by simp)
    · simp only [resolveModelPreset, hz, if_false] at hpreset
      exact List.mem_of_find?_eq_some hpreset
  constructor
  · simp only [getModel, hlm, hpreset, hfch, htry, hsucc]
    simp [mapSet]
  · intro b hb
    have hbt := model_presets_ids_trimmed preset hpm b hb
    simp only [getModel, hlm, hpreset, hfch, htry, hsucc]
    by_cases hbp : b = preset.id
    · subst hbp
      simp [mapSet]
    · simp [mapSet, hbp]
      apply cacheInsertMany_mem
      apply List.mem_filter.mpr
      refine ⟨List.mem_map.mpr ⟨b, hb, hbt.1⟩, ?_⟩
      simp
      exact string_ne_length_pos b hbt.2

/-- A cache hit returns the cached model immediately, with no upstream call
at all (in particular no connectivity probe). -/
theorem getModel_cache_hit (st : MMState) (up : MMUpstream) (pref : Option String)
    (cfg : String) (m : LMModel) (hlm : up.lmAvailable = true)
    (hhit : firstCacheHit st.cachedModels
        (cacheLookupIds pref (resolveModelPreset pref)
          (trimmedPreferredIdsOf (resolveModelPreset pref) pref) (jsTrim cfg))
        = some m) :
    getModel st up pref cfg
      = (.ok m, { st with lastSelectedModel := some (m.id, m) }, []) := by
  simp only [getModel, hlm, hhit]
  simp

/-! ## Claim theorems -/

/-- C3: the chat route's prompt tokens are the `countTokens` sum over the
input messages in both paths, and the non-streaming completion tokens are
`countTokens` of the concatenated fragments; but the streaming path counts
its completion tokens over the drained text with the string "undefined"
appended (the exhausted iterator's `undefined` value is coerced into
`responseTextAll`), so the two paths disagree on identical upstream
fragments: with message "ping", fragment "pong" and `countTokens` = string
length the non-streaming usage is (4, 4, 8) while the streaming final
chunk's usage is (4, 13, 17), because `countTokens("pongundefined") = 13`.
This contradicts the claim that both paths compute
`countTokens(concatenated fragments)`. -/
theorem c3_streaming_completion_tokens_bug :
    (chatRoute (demoChatBody []) demoChatUpstream "gpt-4").1
      = .success (.jsonBody (createChatCompletionResponse "gpt-4o" "pong" 4 4))
    ∧ (chatRoute (demoChatBody [("stream", .bool true)]) demoChatUpstream "gpt-4").1
      = .success (.streamBody
          [roleChunkW "gpt-4o", contentChunkW "gpt-4o" "pong", finalChunkW "gpt-4o" 4 13])
    ∧ String.length ("pong" ++ "undefined") = 13
    ∧ String.length "pong" = 4
    ∧ (∀ mid pt ct fragments,
        chatStreamWrites mid fragments pt ct
          = roleChunkW mid :: fragments.map (contentChunkW mid)
            ++ [finalChunkW mid pt (ct (strConcat fragments ++ "undefined"))])
    ∧ (13 : Nat) ≠ 4 := by
  refine ⟨by decide, by decide, by decide, by decide, ?_, by decide⟩
  intro mid pt ct fragments
  have h := chatStreamLoop_spec mid ct pt fragments ""
  simp at h
  simp [chatStreamWrites, h]

/-- C5 counterexample: for the concrete streaming request with upstream
fragment "pong", the emitted write sequence is the initial role chunk, the
content chunk and the final usage chunk — and then the connection is
closed; no `data: [DONE]` line is ever written, contradicting the claimed
`data: [DONE]` terminator. -/
theorem c5_no_done_line_counterexample :
    (chatRoute (demoChatBody [("stream", .bool true)]) demoChatUpstream "gpt-4").1
      = .success (.streamBody
          [roleChunkW "gpt-4o", contentChunkW "gpt-4o" "pong", finalChunkW "gpt-4o" 4 13])
    ∧ ChatWrite.doneLine
        ∉ [roleChunkW "gpt-4o", contentChunkW "gpt-4o" "pong", finalChunkW "gpt-4o" 4 13] := by
  exact ⟨by decide, by decide⟩

/-- C5 (amended): a successful streaming Chat Completions response consists
of one initial role-only chunk, one `delta.content` chunk per upstream
fragment (an empty-string fragment still yields a payload-bearing content
chunk), and one final chunk with empty delta, `finish_reason:'stop'` and
the usage object; the connection is then closed directly — no
`data: [DONE]` line is written. -/
theorem c5_chat_stream_chunk_sequence (mid : String) (fragments : List String)
    (pt : Nat) (ct : String → Nat) :
    chatStreamWrites mid fragments pt ct
      = roleChunkW mid :: fragments.map (contentChunkW mid)
        ++ [finalChunkW mid pt (ct (strConcat fragments ++ "undefined"))]
    ∧ ChatWrite.doneLine ∉ chatStreamWrites mid fragments pt ct := by
  have h := chatStreamLoop_spec mid ct pt fragments ""
  simp at h
  refine ⟨by simp [chatStreamWrites, h], ?_⟩
  simp [chatStreamWrites, h, roleChunkW, contentChunkW, finalChunkW]

/-- C8 counterexample: a body whose `messages` is the number 42 is rejected
with the message "Messages must be an array", but the HTTP status is 500
(the throw lands in the catch-all handler), not a 4xx status — so the
rejection is not a 4xx and the endpoint has no client-caused 4xx at all. -/
theorem c8_messages_array_check_counterexample :
    chatRoute (.obj [("messages", .num 42)]) demoChatUpstream "gpt-4"
      = (.errorStatus 500 { message := "Messages must be an array",
                            type := "server_error" }, false)
    ∧ ¬ (400 ≤ 500 ∧ 500 < 500) := by
  exact ⟨by decide, by decide⟩

/-- C8 (amended): a body whose `messages` is not an array is rejected
before any upstream call with the error message "Messages must be an
array" in a `server_error` envelope, but like every other failure of the
endpoint it is surfaced with HTTP status 500 — the endpoint never answers
with a 4xx status. -/
theorem c8_messages_array_check_500 (body : JsVal) (up : ChatUpstream) (cfg : String) :
    ((body.get "messages").isArray = false →
       chatRoute body up cfg
         = (.errorStatus 500 (createErrorResponse "Messages must be an array"), false))
    ∧ (∀ st e, (chatRoute body up cfg).1 = .errorStatus st e →
        st = 500 ∧ e.type = "server_error") := by
  constructor
  · intro h
    cases hm : body.get "messages"
    case arr elems => rw [hm] at h; simp [JsVal.isArray] at h
    all_goals simp [chatRoute, chatTryBlock, hm, createErrorResponse]
  · intro st e h
    unfold chatRoute at h
    cases htb : chatTryBlock body up cfg with
    | mk r touched =>
        rw [htb] at h
        cases r with
        | error msg =>
            simp at h
            exact ⟨h.1.symm, by rw [← h.2]; rfl⟩
        | ok s => simp at h

/-- Witness for the amended C8 at a concrete non-array body. -/
theorem c8_messages_array_check_500_witness :
    chatRoute (.obj [("messages", .num 42)]) demoChatUpstream "gpt-4"
      = (.errorStatus 500 (createErrorResponse "Messages must be an array"), false)
    ∧ (500 = 500 ∧ (createErrorResponse "Messages must be an array").type
        = "server_error") := by
  refine ⟨(c8_messages_array_check_500 (.obj [("messages", .num 42)])
    demoChatUpstream "gpt-4").1 (by decide), ?_⟩
  exact (c8_messages_array_check_500 (.obj [("messages", .num 42)])
    demoChatUpstream "gpt-4").2 500 (createErrorResponse "Messages must be an array")
    (by rw [(c8_messages_array_check_500 (.obj [("messages", .num 42)])
      demoChatUpstream "gpt-4").1 (by decide)])

/-- C7: the Responses input normalizer turns `input = "Hello"` into the
single user message "Hello", and an input array whose one message carries
two text parts "A" and "B" into the single user message "A\nB" (parts
flattened and joined with a newline). -/
theorem c7_input_normalizer_roundtrip :
    parseInput (.str "Hello") = [{ role := .user, content := "Hello" }]
    ∧ parseInput (.arr [.obj [("role", .str "user"),
        ("content", .arr [.obj [("type", .str "text"), ("text", .str "A")],
                          .obj [("type", .str "text"), ("text", .str "B")]])]])
      = [{ role := .user, content := "A\nB" }] := by
  constructor
  · simp [parseInput]
  · simp [parseInput, parseMessagesArray, extractText, extractTextFromContentObject,
      lookupField, JsVal.get, normalizeRole, List.attach, List.attachWith]
    decide

/-- C1: a Responses streaming run over N ≥ 0 non-empty upstream fragments
that completes without an exception emits exactly the event-name sequence
created, in_progress, output_item.added (index 0, a reasoning item),
output_item.done, output_item.added (index 1, a message item),
content_part.added, N × output_text.delta (one per non-empty fragment,
empty fragments skipped), output_text.done, content_part.done,
output_item.done (index 1), completed; and the sequence numbers of the
events are exactly 0, 1, 2, … across the whole stream. -/
theorem c1_responses_stream_event_sequence
    (fragments : List String) (promptTokens : Nat) (countTokens : String → Nat)
    (instructions : Option String) (metadata : Option (List (String × String)))
    (modelId responseId messageItemId reasoningItemId : String) (createdAt : Nat) :
    (respHandleStream fragments promptTokens countTokens instructions metadata
        modelId responseId messageItemId reasoningItemId createdAt).map REvent.name
      = ["response.created", "response.in_progress", "response.output_item.added",
         "response.output_item.done", "response.output_item.added",
         "response.content_part.added"]
        ++ List.replicate (nonEmptyCount fragments) "response.output_text.delta"
        ++ ["response.output_text.done", "response.content_part.done",
            "response.output_item.done", "response.completed"]
    ∧ (respHandleStream fragments promptTokens countTokens instructions metadata
        modelId responseId messageItemId reasoningItemId createdAt).map REvent.seq
      = List.range (10 + nonEmptyCount fragments)
    ∧ (∃ it, (respHandleStream fragments promptTokens countTokens instructions metadata
        modelId responseId messageItemId reasoningItemId createdAt)[2]?
        = some (REvent.outputItemAdded 2 0 it) ∧ it.type = "reasoning")
    ∧ (∃ it, (respHandleStream fragments promptTokens countTokens instructions metadata
        modelId responseId messageItemId reasoningItemId createdAt)[4]?
        = some (REvent.outputItemAdded 4 1 it) ∧ it.type = "message") := by
  refine ⟨?_, ?_, ?_, ?_⟩
  · simp [respHandleStream, List.map_append, deltaLoop_names, REvent.name]
  · have e6 : List.range' 0 6 = [0, 1, 2, 3, 4, 5] := by simp [List.range']
    have e4 : List.range' (6 + nonEmptyCount fragments) 4
        = [6 + nonEmptyCount fragments, 6 + nonEmptyCount fragments + 1,
           6 + nonEmptyCount fragments + 2, 6 + nonEmptyCount fragments + 3] := by
      simp [List.range']
    calc (respHandleStream fragments promptTokens countTokens instructions metadata
            modelId responseId messageItemId reasoningItemId createdAt).map REvent.seq
        = [0, 1, 2, 3, 4, 5]
            ++ (List.range' 6 (nonEmptyCount fragments)
            ++ [6 + nonEmptyCount fragments, 6 + nonEmptyCount fragments + 1,
                6 + nonEmptyCount fragments + 2, 6 + nonEmptyCount fragments + 3]) := by
          simp [respHandleStream, List.map_append, deltaLoop_seqs, deltaLoop_seqEnd,
            REvent.seq]
      _ = List.range' 0 6 ++ List.range' 6 (nonEmptyCount fragments)
            ++ List.range' (6 + nonEmptyCount fragments) 4 := by
          rw [e6, e4, List.append_assoc]
      _ = List.range (10 + nonEmptyCount fragments) := range_zero_cover _
  · exact ⟨{ id := reasoningItemId, type := "reasoning", status := some "in_progress",
             encrypted_content := some (base64OfString
               ((instructions.getD "") ++ ":" ++ responseId)) },
           by simp [respHandleStream], rfl⟩
  · exact ⟨{ id := messageItemId, type := "message", status := some "in_progress",
             role := some "assistant", content := [] },
           by simp [respHandleStream], rfl⟩

/-- C9: every `response.output_text.delta` event of a Responses stream has
an `obfuscation` field equal to the base64 encoding of
`"<fragment>:<sequence_number>"` — a deterministic function of the fragment
and the event's sequence number. -/
theorem c9_delta_obfuscation_base64
    (fragments : List String) (promptTokens : Nat) (countTokens : String → Nat)
    (instructions : Option String) (metadata : Option (List (String × String)))
    (modelId responseId messageItemId reasoningItemId : String) (createdAt : Nat) :
    ∀ e ∈ respHandleStream fragments promptTokens countTokens instructions metadata
        modelId responseId messageItemId reasoningItemId createdAt,
      ∀ s iid oi ci d ob, e = REvent.outputTextDelta s iid oi ci d ob →
        ob = base64Encode (utf8Bytes (d ++ ":" ++ toString s)) := by
  intro e he s iid oi ci d ob hedelta
  subst hedelta
  simp [respHandleStream, List.mem_append, List.mem_cons] at he
  obtain ⟨s', d', hE⟩ := deltaLoop_delta_events _ _ _ _ _ he
  injection hE with h1 h2 h3 h4 h5 h6
  subst h1; subst h5; subst h6
  simp [generateObfuscation, base64OfString]

/-- C4: in every envelope built by the Response Formatter (Chat Completion
object, stream chunk, or Responses envelope), a present usage object always
satisfies `total_tokens = input_tokens + output_tokens`; a Responses
envelope has `usage = null` exactly when output is not included, in which
case its output list and output text are empty; and in a Responses stream
every emitted envelope with null usage has status `in_progress` and empty
output. -/
theorem c4_usage_total_invariant :
    (∀ rid mid st p c instr md opts now fid u,
       (createResponseEnvelope rid mid st p c instr md opts now fid).usage = some u →
       u.total_tokens = u.input_tokens + u.output_tokens)
    ∧ (∀ mid text p c,
       (createChatCompletionResponse mid text p c).usage.total_tokens
         = (createChatCompletionResponse mid text p c).usage.input_tokens
           + (createChatCompletionResponse mid text p c).usage.output_tokens)
    ∧ (∀ mid frag isInit isFin us u,
       (createStreamChunk mid frag isInit isFin us).usage = some u →
       u.total_tokens = u.input_tokens + u.output_tokens)
    ∧ (∀ rid mid st p c instr md opts now fid,
       ((createResponseEnvelope rid mid st p c instr md opts now fid).usage = none ↔
         opts.includeOutput.getD true = false)
       ∧ ((createResponseEnvelope rid mid st p c instr md opts now fid).usage = none →
         (createResponseEnvelope rid mid st p c instr md opts now fid).output = []
         ∧ (createResponseEnvelope rid mid st p c instr md opts now fid).output_text = ""))
    ∧ (∀ fragments pt ct instr md mid rid msgid rsid ca,
       ∀ env ∈ envelopesOf (respHandleStream fragments pt ct instr md mid rid msgid rsid ca),
         env.usage = none → env.status = "in_progress" ∧ env.output = []) := by
  refine ⟨?_, ?_, ?_, ?_, ?_⟩
  · intro rid mid st p c instr md opts now fid u h
    rw [createResponseEnvelope_usage] at h
    split at h
    · cases h; rfl
    · simp at h
  · intro mid text p c; rfl
  · intro mid frag isInit isFin us u h
    simp [createStreamChunk] at h
    split at h
    · cases us with
      | none => simp at h
      | some pc => simp at h; subst h; rfl
    · simp at h
  · intro rid mid st p c instr md opts now fid
    constructor
    · rw [createResponseEnvelope_usage]
      split <;> simp_all
    · intro h
      rw [createResponseEnvelope_usage] at h
      split at h
      · simp at h
      · exact createResponseEnvelope_not_include _ _ _ _ _ _ _ _ _ _ (by simp_all)
  · intro fragments pt ct instr md mid rid msgid rsid ca env henv hnone
    simp [respHandleStream, envelopesOf_append, envelopesOf, deltaLoop_envelopes] at henv
    rcases henv with hc | hc
    · subst hc
      refine ⟨createResponseEnvelope_status _ _ _ _ _ _ _ _ _ _,
              (createResponseEnvelope_not_include _ _ _ _ _ _ _ _ _ _ ?_).1⟩
      rfl
    · subst hc
      rw [createResponseEnvelope_usage] at hnone
      simp at hnone

/-- Witness for C4 at concrete inputs: a completed envelope with 5 prompt
and 7 completion tokens has total 12, and the in-progress envelope of a
concrete stream has null usage, in-progress status and empty output. -/
theorem c4_usage_total_invariant_witness :
    (∃ u, (createResponseEnvelope "r" "m" "completed" 5 7 none none {} 0 "msg").usage = some u
       ∧ u.total_tokens = u.input_tokens + u.output_tokens)
    ∧ (∃ env ∈ envelopesOf (respHandleStream ["hi"] 5 String.length none none "m" "r" "msg" "rs" 0),
        env.usage = none ∧ env.status = "in_progress" ∧ env.output = []) := by
  constructor
  · refine ⟨{ input_tokens := 5, output_tokens := 7, total_tokens := 12 }, by decide, ?_⟩
    exact c4_usage_total_invariant.1 "r" "m" "completed" 5 7 none none {} 0 "msg" _ (by decide)
  · have hmem : createResponseEnvelope "r" "m" "in_progress" 5 0 (some "") none
        { createdAt := some 0, outputText := some "", outputId := some "msg",
          includeOutput := some false } 0 "msg"
        ∈ envelopesOf (respHandleStream ["hi"] 5 String.length none none "m" "r" "msg" "rs" 0) := by
      decide
    have hnone : (createResponseEnvelope "r" "m" "in_progress" 5 0 (some "") none
        { createdAt := some 0, outputText := some "", outputId := some "msg",
          includeOutput := some false } 0 "msg").usage = none := by decide
    have h := c4_usage_total_invariant.2.2.2.2 ["hi"] 5 String.length none none
      "m" "r" "msg" "rs" 0 _ hmem hnone
    exact ⟨_, hmem, hnone, h.1, h.2⟩

/-- Witness for C9: the delta event of the stream over the single fragment
"Hello" (sequence number 6) carries base64("Hello:6"), i.e. "SGVsbG86Ng==". -/
theorem c9_delta_obfuscation_base64_witness :
    generateObfuscation "Hello" 6 = base64Encode (utf8Bytes ("Hello" ++ ":" ++ toString 6))
      ∧ generateObfuscation "Hello" 6 = "SGVsbG86Ng==" := by
  have h := c9_delta_obfuscation_base64 ["Hello"] 3 String.length (some "sys") none
    "m" "r1" "msg1" "rs1" 99
    (REvent.outputTextDelta 6 "msg1" 1 0 "Hello" (generateObfuscation "Hello" 6))
    (by decide) 6 "msg1" 1 0 "Hello" (generateObfuscation "Hello" 6) rfl
  exact ⟨h, by decide⟩



/-- C6: for a model id matching a known preset (case-insensitive) and an
uncached lookup-id set, `getModel` runs the selector cascade — an exact-id
selector then a family selector for each base id in order, the default-id
pair, then the wildcard — and returns the model supplied by the first
succeeding selector; afterwards the cache maps the preset id and every base
id to that model; and any later call whose lookup-id set hits the cache
returns the cached model immediately with no upstream call (in particular
no connectivity test). -/
theorem c6_preset_resolve_and_cache :
    (∀ (st : MMState) (up : MMUpstream) (pid cfg : String) (preset : ModelPreset),
      resolveModelPreset (some pid) = some preset →
      up.lmAvailable = true →
      (∀ id ∈ cacheLookupIds (some pid) (some preset)
          (trimmedPreferredIdsOf (some preset) (some pid)) (jsTrim cfg),
          st.cachedModels id = none) →
      ((getModel st up (some pid) cfg).1
        = (match (selectorList (trimmedPreferredIdsOf (some preset) (some pid))
              (jsTrim cfg)).findSome?
              (pickFromSelector up st.lastSelectedModel
                (selectionPreferredIdOf (trimmedPreferredIdsOf (some preset) (some pid))
                  (some pid)) (jsTrim cfg)) with
           | some m => Except.ok m
           | none => Except.error ("No language models available. Please check your"
               ++ " GitHub Copilot connection.")))
      ∧ (∀ m, (selectorList (trimmedPreferredIdsOf (some preset) (some pid))
            (jsTrim cfg)).findSome?
            (pickFromSelector up st.lastSelectedModel
              (selectionPreferredIdOf (trimmedPreferredIdsOf (some preset) (some pid))
                (some pid)) (jsTrim cfg)) = some m →
          ((getModel st up (some pid) cfg).2.1.cachedModels preset.id = some m)
          ∧ ∀ b ∈ preset.baseModelIds,
              (getModel st up (some pid) cfg).2.1.cachedModels b = some m))
    ∧ (∀ (st : MMState) (up : MMUpstream) (pref : Option String) (cfg : String)
        (m : LMModel), up.lmAvailable = true →
        firstCacheHit st.cachedModels
            (cacheLookupIds pref (resolveModelPreset pref)
              (trimmedPreferredIdsOf (resolveModelPreset pref) pref) (jsTrim cfg))
          = some m →
        getModel st up pref cfg
          = (.ok m, { st with lastSelectedModel := some (m.id, m) }, [])) := by
  refine ⟨fun st up pid cfg preset hp hlm hmiss => ⟨?_, fun m hs => ?_⟩,
          fun st up pref cfg m hlm hhit => getModel_cache_hit st up pref cfg m hlm hhit⟩
  · exact getModel_preset_result st up pid cfg preset hp hlm hmiss
  · exact getModel_preset_cache st up pid cfg preset m hp hlm hmiss hs

/-- Witness for C6: resolving the preset "gpt-5-high" against an upstream
that supplies a gpt-5 model caches it under the preset id and both base
ids, and the second resolution is a pure cache hit with no upstream
calls. -/
theorem c6_preset_resolve_and_cache_witness :
    (getModel MMState.initial demoMMUpstream (some "gpt-5-high") "claude-sonnet-4.5").1
      = .ok demoM5
    ∧ ((getModel MMState.initial demoMMUpstream (some "gpt-5-high")
        "claude-sonnet-4.5").2.1.cachedModels "gpt-5-high" = some demoM5)
    ∧ ((getModel MMState.initial demoMMUpstream (some "gpt-5-high")
        "claude-sonnet-4.5").2.1.cachedModels "gpt-5" = some demoM5)
    ∧ ((getModel MMState.initial demoMMUpstream (some "gpt-5-high")
        "claude-sonnet-4.5").2.1.cachedModels "openai/gpt-5" = some demoM5)
    ∧ ((getModel (getModel MMState.initial demoMMUpstream (some "gpt-5-high")
          "claude-sonnet-4.5").2.1 demoMMUpstream (some "gpt-5-high")
          "claude-sonnet-4.5").1 = .ok demoM5
       ∧ (getModel (getModel MMState.initial demoMMUpstream (some "gpt-5-high")
            "claude-sonnet-4.5").2.1 demoMMUpstream (some "gpt-5-high")
            "claude-sonnet-4.5").2.2 = []) := by
  have h := c6_preset_resolve_and_cache
  have hp : resolveModelPreset (some "gpt-5-high") = some presetGpt5High := by decide
  have hmiss : ∀ id ∈ cacheLookupIds (some "gpt-5-high") (some presetGpt5High)
      (trimmedPreferredIdsOf (some presetGpt5High) (some "gpt-5-high"))
      (jsTrim "claude-sonnet-4.5"),
      MMState.initial.cachedModels id = none := fun id _ => rfl
  have hmain := h.1 MMState.initial demoMMUpstream "gpt-5-high" "claude-sonnet-4.5"
    presetGpt5High hp rfl hmiss
  have hfs : (selectorList (trimmedPreferredIdsOf (some presetGpt5High)
      (some "gpt-5-high")) (jsTrim "claude-sonnet-4.5")).findSome?
      (pickFromSelector demoMMUpstream MMState.initial.lastSelectedModel
        (selectionPreferredIdOf (trimmedPreferredIdsOf (some presetGpt5High)
          (some "gpt-5-high")) (some "gpt-5-high")) (jsTrim "claude-sonnet-4.5"))
      = some demoM5 := by decide
  have hcache := hmain.2 demoM5 hfs
  have hres : (getModel MMState.initial demoMMUpstream (some "gpt-5-high")
      "claude-sonnet-4.5").1 = .ok demoM5 := by
    rw [hmain.1, hfs]
  refine ⟨hres, hcache.1, hcache.2 "gpt-5" (by decide), hcache.2 "openai/gpt-5" (by decide), ?_⟩
  have hlook : cacheLookupIds (some "gpt-5-high")
      (resolveModelPreset (some "gpt-5-high"))
      (trimmedPreferredIdsOf (resolveModelPreset (some "gpt-5-high")) (some "gpt-5-high"))
      (jsTrim "claude-sonnet-4.5")
      = ["gpt-5-high", "gpt-5", "openai/gpt-5", "claude-sonnet-4.5"] := by decide
  have hhit : firstCacheHit (getModel MMState.initial demoMMUpstream (some "gpt-5-high")
        "claude-sonnet-4.5").2.1.cachedModels
      (cacheLookupIds (some "gpt-5-high") (resolveModelPreset (some "gpt-5-high"))
        (trimmedPreferredIdsOf (resolveModelPreset (some "gpt-5-high")) (some "gpt-5-high"))
        (jsTrim "claude-sonnet-4.5")) = some demoM5 := by
    have hc1 : (getModel MMState.initial demoMMUpstream (some "gpt-5-high")
        "claude-sonnet-4.5").2.1.cachedModels "gpt-5-high" = some demoM5 := hcache.1
    rw [hlook, firstCacheHit, hc1]
  have h2 := h.2 (getModel MMState.initial demoMMUpstream (some "gpt-5-high")
    "claude-sonnet-4.5").2.1 demoMMUpstream (some "gpt-5-high") "claude-sonnet-4.5"
    demoM5 rfl hhit
  exact ⟨by rw [h2], by rw [h2]⟩

/-- C2 (amended): a POST to /v1/responses whose body carries
`previous_response_id` as a non-empty string is answered with HTTP 400 and
an error envelope whose message is exactly
"previous_response_id is not supported yet.", with no upstream model call
made (empty call trace, resolver state untouched). -/
theorem c2_prev_response_id_rejection (body : JsVal) (headers : List (String × String))
    (st : MMState) (up : RespUpstream) (cfg rid mid rsid : String) (now : Nat) :
    ∀ p, body.get "previous_response_id" = .str p → p ≠ "" →
      responsesHandle body headers st up cfg rid mid rsid now
        = (.rejectedPrev 400
            (createErrorResponse "previous_response_id is not supported yet."),
           st, []) := by
  intro p hp hne
  simp only [responsesHandle, hp]
  simp [hne]

/-- Witness for the amended C2 at the concrete value "abc". -/
theorem c2_prev_response_id_rejection_witness :
    responsesHandle (.obj [("previous_response_id", .str "abc")]) [] MMState.initial
        demoRespUpstream "gpt-5" "r1" "m1" "rs1" 0
      = (.rejectedPrev 400
          (createErrorResponse "previous_response_id is not supported yet."),
         MMState.initial, []) := by
  exact c2_prev_response_id_rejection (.obj [("previous_response_id", .str "abc")]) []
    MMState.initial demoRespUpstream "gpt-5" "r1" "m1" "rs1" 0 "abc" rfl (by decide)

/-- C2 counterexample: a body containing the field `previous_response_id`
with the (falsy) empty-string value is NOT rejected — the request proceeds,
an upstream model call is made and the response status is 200, refuting
the claim for every body that merely contains the field. -/
theorem c2_prev_empty_string_counterexample :
    (JsVal.obj [("previous_response_id", .str ""), ("input", .str "ping")]).get
        "previous_response_id" = .str ""
    ∧ responsesStatus (responsesHandle
        (.obj [("previous_response_id", .str ""), ("input", .str "ping")]) []
        MMState.initial demoRespUpstream "gpt-5" "r1" "m1" "rs1" 0).1 = 200
    ∧ (responsesHandle (.obj [("previous_response_id", .str ""), ("input", .str "ping")])
        [] MMState.initial demoRespUpstream "gpt-5" "r1" "m1" "rs1" 0).2.2 ≠ [] := by
  refine ⟨rfl, by decide, by decide⟩

/-- C10: the effective instruction text of a Responses request is never
empty (the built-in default is substituted when the request supplies none
or only whitespace), it is always pushed as the leading system message, so
the message list built for /v1/responses is never empty and the
`No input provided` error branch (`messages.length === 0`) is
unreachable. -/
theorem c10_no_input_branch_unreachable :
    (∀ instructions : JsVal, effectiveInstructions instructions ≠ "")
    ∧ (∀ (instructions input fallback : JsVal),
        (buildMessages input (effectiveInstructions instructions) fallback).head?
          = some { role := .system, content := effectiveInstructions instructions })
    ∧ (∀ (instructions input fallback : JsVal),
        responsesTryMessages input (effectiveInstructions instructions) fallback
          = .ok (buildMessages input (effectiveInstructions instructions) fallback)) := by
  refine ⟨effectiveInstructions_ne, ?_, ?_⟩
  · intro instructions input fallback
    simp [buildMessages, effectiveInstructions_ne instructions]
  · intro instructions input fallback
    unfold responsesTryMessages
    have hlen : (buildMessages input (effectiveInstructions instructions) fallback).length
        ≠ 0 := by
      simp [buildMessages, effectiveInstructions_ne instructions]
    simp [hlen]

end LlmServer
